import Mathlib

/-!
Verification of the `firm` ActivityPub server core against its
natural-language specification.  The definitions below are a shallow
embedding of the Python sources: JSON documents become an inductive
`J` type, the in-memory resource store (`firm/store/memory.py`) becomes
an association list keyed by resource id, and the request handlers of
`firm/services/activitypub.py`, the authorization engine of
`firm/auth/authorization.py`, the basic authenticator of
`firm/auth/http_basic.py` and the routing logic of
`firm/store/prefixstore.py` become pure functions over that state.
Python exceptions are modelled with `Except`, mutation by explicit
state passing, and `uuid.uuid4()` by threading fresh-name parameters.
-/

namespace Firm

/-- JSON values (`firm.interfaces.JSON`).  Objects are association lists
in insertion order, mirroring Python dict semantics.  (Python dict
equality is order-insensitive; the embedding compares objects
structurally, which agrees with Python on all documents appearing in
the claims.) -/
inductive J where
  | null : J
  | bool (b : Bool) : J
  | num (n : Int) : J
  | str (s : String) : J
  | arr (elements : List J) : J
  | obj (fields : List (String × J)) : J
deriving Repr

/-- JSON objects (`firm.interfaces.JSONObject`): key/value pairs in
insertion order. -/
abbrev JObj := List (String × J)

mutual

/-- Structural (Python `==`) equality on JSON values. -/
def J.beq : J → J → Bool
  | .null, .null => true
  | .bool a, .bool b => a == b
  | .num a, .num b => a == b
  | .str a, .str b => a == b
  | .arr a, .arr b => J.beqList a b
  | .obj a, .obj b => J.beqObj a b
  | _, _ => false

def J.beqList : List J → List J → Bool
  | [], [] => true
  | a :: as', b :: bs => J.beq a b && J.beqList as' bs
  | _, _ => false

def J.beqObj : List (String × J) → List (String × J) → Bool
  | [], [] => true
  | (k, v) :: as', (k', v') :: bs => k == k' && J.beq v v' && J.beqObj as' bs
  | _, _ => false

end

instance : BEq J := ⟨J.beq⟩

mutual

def J.beq_refl : (a : J) → J.beq a a = true
  | .null => rfl
  | .bool b => by simp [J.beq]
  | .num n => by simp [J.beq]
  | .str s => by simp [J.beq]
  | .arr l => by simp [J.beq]; exact J.beqList_refl l
  | .obj o => by simp [J.beq]; exact J.beqObj_refl o

def J.beqList_refl : (l : List J) → J.beqList l l = true
  | [] => rfl
  | a :: as' => by simp [J.beqList]; exact ⟨J.beq_refl a, J.beqList_refl as'⟩

def J.beqObj_refl : (l : List (String × J)) → J.beqObj l l = true
  | [] => rfl
  | (k, v) :: as' => by
      simp [J.beqObj]; exact ⟨J.beq_refl v, J.beqObj_refl as'⟩

end

mutual

def J.beq_eq : (a b : J) → J.beq a b = true → a = b
  | .null, .null, _ => rfl
  | .bool _, .bool _, h => by simp [J.beq] at h; simp [h]
  | .num _, .num _, h => by simp [J.beq] at h; simp [h]
  | .str _, .str _, h => by simp [J.beq] at h; simp [h]
  | .arr a, .arr b, h => by
      simp [J.beq] at h; simp [J.beqList_eq a b h]
  | .obj a, .obj b, h => by
      simp [J.beq] at h; simp [J.beqObj_eq a b h]
  | .null, .bool _, h => by simp [J.beq] at h
  | .null, .num _, h => by simp [J.beq] at h
  | .null, .str _, h => by simp [J.beq] at h
  | .null, .arr _, h => by simp [J.beq] at h
  | .null, .obj _, h => by simp [J.beq] at h
  | .bool _, .null, h => by simp [J.beq] at h
  | .bool _, .num _, h => by simp [J.beq] at h
  | .bool _, .str _, h => by simp [J.beq] at h
  | .bool _, .arr _, h => by simp [J.beq] at h
  | .bool _, .obj _, h => by simp [J.beq] at h
  | .num _, .null, h => by simp [J.beq] at h
  | .num _, .bool _, h => by simp [J.beq] at h
  | .num _, .str _, h => by simp [J.beq] at h
  | .num _, .arr _, h => by simp [J.beq] at h
  | .num _, .obj _, h => by simp [J.beq] at h
  | .str _, .null, h => by simp [J.beq] at h
  | .str _, .bool _, h => by simp [J.beq] at h
  | .str _, .num _, h => by simp [J.beq] at h
  | .str _, .arr _, h => by simp [J.beq] at h
  | .str _, .obj _, h => by simp [J.beq] at h
  | .arr _, .null, h => by simp [J.beq] at h
  | .arr _, .bool _, h => by simp [J.beq] at h
  | .arr _, .num _, h => by simp [J.beq] at h
  | .arr _, .str _, h => by simp [J.beq] at h
  | .arr _, .obj _, h => by simp [J.beq] at h
  | .obj _, .null, h => by simp [J.beq] at h
  | .obj _, .bool _, h => by simp [J.beq] at h
  | .obj _, .num _, h => by simp [J.beq] at h
  | .obj _, .str _, h => by simp [J.beq] at h
  | .obj _, .arr _, h => by simp [J.beq] at h

def J.beqList_eq : (a b : List J) → J.beqList a b = true → a = b
  | [], [], _ => rfl
  | x :: xs, y :: ys, h => by
      simp [J.beqList] at h
      simp [J.beq_eq x y h.1, J.beqList_eq xs ys h.2]
  | [], _ :: _, h => by simp [J.beqList] at h
  | _ :: _, [], h => by simp [J.beqList] at h

def J.beqObj_eq : (a b : List (String × J)) → J.beqObj a b = true → a = b
  | [], [], _ => rfl
  | (k, v) :: xs, (k', v') :: ys, h => by
      simp [J.beqObj] at h
      simp [h.1.1, J.beq_eq v v' h.1.2, J.beqObj_eq xs ys h.2]
  | [], _ :: _, h => by simp [J.beqObj] at h
  | _ :: _, [], h => by simp [J.beqObj] at h

end

instance : DecidableEq J := fun a b =>
  if h : J.beq a b = true then
    .isTrue (J.beq_eq a b h)
  else
    .isFalse (fun he => h (he ▸ J.beq_refl a))

instance : LawfulBEq J where
  eq_of_beq h := J.beq_eq _ _ h
  rfl := J.beq_refl _

deriving instance DecidableEq for Except

/-- Python exceptions raised by the embedded code.  `http` models
`firm.interfaces.HttpException(status_code, detail)`; the others model
the built-in Python exception classes. -/
inductive PyErr where
  | http (status : Nat) (detail : String)
  | valueError (msg : String)
  | keyError (key : String)
  | typeError (msg : String)
  | attrError (msg : String)
deriving DecidableEq, Repr

/-- `d.get(k)`: first value bound to `k` (dict keys are unique). -/
def jget : JObj → String → Option J
  | [], _ => none
  | (k', v) :: rest, k => if k' = k then some v else jget rest k

/-- `d[k] = v`: replace the value at an existing key in place, else
append (Python dict insertion-order semantics). -/
def jset : JObj → String → J → JObj
  | [], k, v => [(k, v)]
  | (k', v') :: rest, k, v =>
      if k' = k then (k, v) :: rest else (k', v') :: jset rest k v

/-- `s.startswith(p)` (computed on the character lists so that all
proofs can evaluate it). -/
def pyStartsWith (s p : String) : Bool := p.data.isPrefixOf s.data

/-- ASCII `str.lower()`. -/
def pyLower (s : String) : String := ⟨s.data.map Char.toLower⟩

/-- Python truthiness of a JSON value. -/
def truthy : J → Bool
  | .null => false
  | .bool b => b
  | .num n => n != 0
  | .str s => !s.data.isEmpty
  | .arr l => !l.isEmpty
  | .obj o => !o.isEmpty

/-- Python `str(...)` of a JSON value.  On the verified code paths this
is only ever applied to strings; the renderings of the other variants
are simplified stand-ins for Python's `repr`-based formatting. -/
def pyStr : J → String
  | .str s => s
  | .num n => toString n
  | .bool true => "True"
  | .bool false => "False"
  | .null => "None"
  | .arr _ => "<list>"
  | .obj _ => "<dict>"

/-! ## `firm/util.py` helpers -/

/-- `firm.util.AP_PUBLIC_URIS`. -/
def apPublicUris : List String :=
  ["https://www.w3.org/ns/activitystreams#Public", "as:Public", "Public"]

/-- `firm.util.AS2_ACTOR_TYPES`. -/
def as2ActorTypes : List String :=
  ["Application", "Group", "Organization", "Person", "Service"]

/-- `firm.util.has_value(resource, key, value)`: the value at `key` is
the string `value`, or a list containing it. -/
def hasValue (r : JObj) (k v : String) : Bool :=
  match jget r k with
  | some (.str s) => s == v
  | some (.arr l) => l.contains (.str v)
  | _ => false

/-- `firm.util.is_type`. -/
def isType (r : JObj) (t : String) : Bool := hasValue r "type" t

/-- `firm.util.is_type_any`. -/
def isTypeAny (r : JObj) (ts : List String) : Bool := ts.any (isType r)

/-- `firm.util.get_types`: the `type` value as a list.  `none` models
the `TypeError` the source would raise when iterating a value that is
neither a string nor a list. -/
def getTypes (r : JObj) : Option (List J) :=
  match jget r "type" with
  | none => some []
  | some (.str s) => some [.str s]
  | some (.arr l) => some l
  | some _ => none

/-- `firm.util.is_actor_object`: some declared type is an AS2 actor
type. -/
def isActorObject (r : JObj) : Bool :=
  match getTypes r with
  | some ts =>
      ts.any fun t =>
        match t with
        | .str s => as2ActorTypes.contains s
        | _ => false
  | none => false

/-- `firm.util.is_actor_collection`. -/
def isActorCollection (actor : JObj) (uri : String) : Bool :=
  ["followers", "following", "liked", "shares"].any fun k =>
    (jget actor k).getD .null == J.str uri

/-- `firm.util.is_recipient`. -/
def isRecipient (r : JObj) (uri : String) : Bool :=
  ["to", "bto", "cc", "bcc", "audience"].any fun k =>
    match jget r k with
    | some v =>
        if truthy v then
          match v with
          | .str s => s == uri
          | .arr l => l.any fun x => x == J.str uri
          | _ => false
        else false
    | none => false

/-- `firm.auth.authorization.is_public`: some addressing field present
on the resource carries a public URI. -/
def isPublic (r : JObj) : Bool :=
  ["to", "cc", "bto", "bcc", "audience"].any fun k =>
    if (jget r k).isSome then apPublicUris.any fun uri => hasValue r k uri
    else false

/-- `firm.auth.authorization.is_attributed_user` (the principal is
identified by its URI). -/
def isAttributedUser (principalUri : String) (r : JObj) : Bool :=
  hasValue r "attributedTo" principalUri

/-- `firm.util.resource_id` applied to an optional JSON value (the
argument is often `resource.get(...)`, which may be Python `None`,
modelled as `none`; an explicit JSON `null` behaves the same way). -/
def resourceIdE : Option J → Except PyErr String
  | some (.str s) => .ok s
  | some (.obj o) =>
      match jget o "id" with
      | some v => .ok (pyStr v)
      | none => .error (.keyError "id")
  | _ => .error (.valueError "Get get ID from resource")

/-- `firm.util.resource_id` applied to a JSON object. -/
def resourceIdObj (r : JObj) : Except PyErr String := resourceIdE (some (.obj r))

/-- `firm.util.get_id`: like `resource_id` but returns `None` instead
of raising on a non-string, non-mapping argument. -/
def getId : Option J → Except PyErr (Option String)
  | some (.str s) => .ok (some s)
  | some (.obj o) =>
      match jget o "id" with
      | some v => .ok (some (pyStr v))
      | none => .error (.keyError "id")
  | _ => .ok none

/-- Inner loop of `firm.util.resource_get`: walk the keys, returning
the default (`none`) as soon as the current value is `None` or not a
mapping.  An explicit JSON `null` intermediate behaves like Python
`None` (both are the same value in Python). -/
def resourceGetGo : Option J → List String → Option J
  | v, [] => v
  | some (.obj o), k :: ks => resourceGetGo (jget o k) ks
  | _, _ :: _ => none

/-- `firm.util.resource_get(resource, *keys)`. -/
def resourceGet (r : JObj) (keys : List String) : Option J :=
  resourceGetGo (some (.obj r)) keys

/-! ## `firm/store/memory.py` and `firm/store/base.py` -/

/-- The `MemoryResourceStore._objects` dict: resource id to document,
in insertion order. -/
abbrev Store := List (String × JObj)

/-- Dict lookup on the store. -/
def storeLookup : Store → String → Option JObj
  | [], _ => none
  | (k', v) :: rest, k => if k' = k then some v else storeLookup rest k

/-- Dict assignment on the store: replace in place or append. -/
def storeInsert : Store → String → JObj → Store
  | [], k, v => [(k, v)]
  | (k', v') :: rest, k, v =>
      if k' = k then (k, v) :: rest else (k', v') :: storeInsert rest k v

/-- `MemoryResourceStore.get`. -/
def memGet (st : Store) (uri : String) : Option JObj := storeLookup st uri

/-- `MemoryResourceStore.put`: if the resource has no `id`, one is
assigned from a fresh UUID (`fresh` models `uuid.uuid4()`); the
(possibly mutated) resource is returned alongside the store. -/
def memPut (st : Store) (r : JObj) (fresh : String) : Store × JObj :=
  match jget r "id" with
  | none =>
      let rid := "urn:uuid:" ++ fresh
      let r' := jset r "id" (.str rid)
      (storeInsert st rid r', r')
  | some v => (storeInsert st (pyStr v) r, r)

/-- `ResourceStoreBase.is_match(obj, criteria)`: for every criteria
key not starting with `@`, the document value (Python `None`, i.e.
`null`, when absent) must contain the criteria value if it is a list,
and equal it otherwise. -/
def isMatch (o : JObj) (criteria : JObj) : Bool :=
  criteria.all fun kv =>
    if pyStartsWith kv.1 "@" then true
    else
      match (jget o kv.1).getD .null with
      | .arr l => l.contains kv.2
      | v => v == kv.2

/-- `MemoryResourceStore.query`: all stored documents matching the
criteria, in store order. -/
def query (st : Store) (criteria : JObj) : List JObj :=
  (st.map Prod.snd).filter fun o => isMatch o criteria

/-- `ResourceStoreBase.query_one`: zero matches gives `None`, one match
gives the document, more than one raises `ValueError`. -/
def queryOne (st : Store) (criteria : JObj) : Except PyErr (Option JObj) :=
  match query st criteria with
  | [] => .ok none
  | [d] => .ok (some d)
  | _ => .error (.valueError "Multiple matches for query_one")

/-! ## Collection mutation (`ActivityPubTenant._put_collection_item`,
`._remove_collection_item` in `firm/services/activitypub.py`) -/

/-- `ActivityPubTenant._put_collection_item(collection_uri, item_uri,
prepend, allow_dups)`.  The items key is `orderedItems` when the
collection's declared type includes `OrderedCollection`, else `items`.
A truthy list value is mutated (early-returning without a store write
on a disallowed duplicate); a falsy or absent value is replaced by a
singleton list; a truthy non-list value is left untouched.  `fresh`
feeds `memPut` (unused when the collection carries an `id`). -/
def putCollectionItem (st : Store) (collectionUri itemUri : String)
    (prepend allowDups : Bool) (fresh : String) : Except PyErr Store :=
  match memGet st collectionUri with
  | none => .error (.valueError s!"Unknown collection: {collectionUri}")
  | some c =>
      let itemsKey :=
        if hasValue c "type" "OrderedCollection" then "orderedItems" else "items"
      match jget c itemsKey with
      | some items =>
          if truthy items then
            match items with
            | .arr l =>
                if !allowDups && l.contains (.str itemUri) then .ok st
                else
                  let l' := if prepend then .str itemUri :: l else l ++ [.str itemUri]
                  .ok (memPut st (jset c itemsKey (.arr l')) fresh).1
            | _ => .ok (memPut st c fresh).1
          else .ok (memPut st (jset c itemsKey (.arr [.str itemUri])) fresh).1
      | none => .ok (memPut st (jset c itemsKey (.arr [.str itemUri])) fresh).1

/-- Default-argument form used at every dispatch-engine call site
(`prepend=True, allow_dups=False`). -/
def putCollectionItemDefault (st : Store) (collectionUri itemUri : String)
    (fresh : String) : Except PyErr Store :=
  putCollectionItem st collectionUri itemUri true false fresh

/-- `ActivityPubTenant._remove_collection_item(collection_uri,
item_uri)`: drop the first occurrence of the URI from the items list
(if present) and re-put the collection unconditionally. -/
def removeCollectionItem (st : Store) (collectionUri itemUri : String)
    (fresh : String) : Except PyErr Store :=
  match memGet st collectionUri with
  | none => .error (.valueError s!"Unknown collection: {collectionUri}")
  | some c =>
      let itemsKey :=
        if hasValue c "type" "OrderedCollection" then "orderedItems" else "items"
      match jget c itemsKey with
      | some items =>
          if truthy items then
            match items with
            | .arr l =>
                if l.contains (.str itemUri) then
                  .ok (memPut st (jset c itemsKey (.arr (l.erase (.str itemUri)))) fresh).1
                else .ok (memPut st c fresh).1
            | _ => .ok (memPut st c fresh).1
          else .ok (memPut st c fresh).1
      | none => .ok (memPut st c fresh).1

/-! ## URL prefixes (`firm.interfaces.get_url_prefix`, built on
`urllib.parse.urlparse`) and prefix routing
(`firm/store/prefixstore.py`) -/

/-- Characters allowed in a URL scheme after the initial letter
(CPython `urllib.parse.scheme_chars`). -/
def isSchemeChar (c : Char) : Bool :=
  c.isAlphanum || c == '+' || c == '-' || c == '.'

/-- Split a character list at the first `':'`. -/
def splitAtColon : List Char → Option (List Char × List Char)
  | [] => none
  | c :: cs =>
      if c = ':' then some ([], cs)
      else (splitAtColon cs).map fun p => (c :: p.1, p.2)

/-- A non-empty, letter-initial, scheme-charactered candidate scheme
(the condition under which `urlparse` recognises a scheme). -/
def validSchemeChars (l : List Char) : Bool :=
  match l with
  | [] => false
  | c :: _ => c.isAlpha && l.all isSchemeChar

/-- ASCII lowercase a character list (Python `str.lower` on a scheme). -/
def lowerChars (l : List Char) : List Char := l.map Char.toLower

/-- `urlparse` scheme recognition: the (lowercased) scheme and the rest
of the URL, or an empty scheme with the URL untouched. -/
def schemeSplit (l : List Char) : List Char × List Char :=
  match splitAtColon l with
  | some (sch, rest) =>
      if validSchemeChars sch then (lowerChars sch, rest) else ([], l)
  | none => ([], l)

/-- `urlparse` netloc: present only after a leading `//`, running up to
the next `/`, `?` or `#`. -/
def netlocChars (l : List Char) : List Char :=
  match l with
  | '/' :: '/' :: rest => rest.takeWhile fun c => c ≠ '/' && c ≠ '?' && c ≠ '#'
  | _ => []

/-- `firm.interfaces.get_url_prefix(url)` on the character level:
`f"{scheme}://{netloc}"`. -/
def pfxChars (l : List Char) : List Char :=
  let p := schemeSplit l
  p.1 ++ ':' :: '/' :: '/' :: netlocChars p.2

/-- `firm.interfaces.get_url_prefix(url)`. -/
def urlPfx (s : String) : String := ⟨pfxChars s.data⟩

/-- `PrefixAwareResourceStore._is_private(prefix)`:
`prefix.startswith("urn:")`. -/
def isPrivatePfx (p : String) : Bool :=
  ['u', 'r', 'n', ':'].isPrefixOf p.data

/-- The partition a prefix-aware store routes to: a tenant partition
(identified by its key in `tenant_stores`), the shared remote
partition, or the private partition. -/
inductive Partition where
  | tenant (key : String)
  | remote
  | priv
deriving DecidableEq, Repr

/-- `PrefixAwareResourceStore._get_store_for_prefix(prefix)` with the
configured tenant keys abstracted as `tenants`.  The stored
`ResourceStore` objects are always truthy, so `get(prefix) or
get("*")` takes the first key present. -/
def storeForPfxCanon (tenants : List String) (p : String) : Except PyErr Partition :=
  if isPrivatePfx p then .ok .priv
  else if !tenants.contains p then .ok .remote
  else
    match (if tenants.contains p then some p else none).orElse
        (fun _ => if tenants.contains "*" then some "*" else none) with
    | some k => .ok (.tenant k)
    | none => .error (.valueError s!"No store for {p}")

def storeForPfx (tenants : List String) (pfx : String) : Except PyErr Partition :=
  storeForPfxCanon tenants (urlPfx pfx)

/-- `PrefixAwareResourceStore._get_store_for_uri(uri)`. -/
def storeForUri (tenants : List String) (uri : String) : Except PyErr Partition :=
  storeForPfx tenants (urlPfx uri)

/-! ## ActivityPub request handlers (`firm/services/activitypub.py`)

The handlers are state-passing functions producing the final store, the
list of activities handed to `DeliveryService.deliver` (in order), and
either an `HttpResp` or the Python exception that escaped.  Store
mutations performed before an exception survive it, as in the source.
`fresh : Nat → String` supplies the `uuid.uuid4()` values. -/

/-- An HTTP response (`firm.interfaces.PlainTextResponse` /
`JsonResponse` as far as the claims observe them). -/
structure HttpResp where
  status : Nat
  reasonPhrase : String
  body : String
  headers : List (String × String)
deriving DecidableEq, Repr

/-- `firm.services.activitypub.OK`:
`PlainTextResponse("", 200, reason_phrase="OK")`. -/
def okResp : HttpResp := ⟨200, "OK", "", []⟩

/-- Result triple of a handler: final store, delivered activities,
response or escaped exception. -/
abbrev HandlerResult := Store × List JObj × Except PyErr HttpResp

/-- `ActivityPubTenant._assert_authorized_actor(request, actor_uri)`:
forbidden unless the request is authenticated as exactly `actor_uri`
(which may be an arbitrary JSON value at the Like call site). -/
def assertAuthorizedActor (auth : Option String) (actorUri : J) : Except PyErr Unit :=
  match auth with
  | none => .error (.http 403 "Not authorized")
  | some u => if actorUri == .str u then .ok () else .error (.http 403 "Not authorized")

/-- Tail of `ActivityPubTenant._process_outbox_internal`: prepend the
activity URI to the outbox collection, then hand the activity to the
delivery service. -/
def outboxFinish (outboxUri : String) (uCol : String) (st : Store) (d : List JObj)
    (act : JObj) : Store × List JObj × Except PyErr JObj :=
  match resourceIdObj act with
  | .error e => (st, d, .error e)
  | .ok actId =>
      match putCollectionItemDefault st outboxUri actId uCol with
      | .error e => (st, d, .error e)
      | .ok st' => (st', d ++ [act], .ok act)

/-- `ActivityPubTenant._process_outbox_internal(outbox_uri, activity)`.
For a `Create` with an embedded object, the activity's `object` field
is replaced by the embedded object's *current* id, the object is given
a freshly generated id and `attributedTo`, and only the object is
persisted; any other activity is persisted itself.  Then the activity
URI is prepended to the outbox and the activity delivered.  Returns the
(possibly mutated) activity. -/
def processOutboxInternal (fresh : Nat → String) (st : Store) (d : List JObj)
    (outboxUri : String) (activity : JObj) : Store × List JObj × Except PyErr JObj :=
  if hasValue activity "type" "Create" then
    match jget activity "object" with
    | none => (st, d, .error (.keyError "object"))
    | some aobj =>
        match aobj with
        | .obj o =>
            match resourceIdObj o with
            | .error e => (st, d, .error e)
            | .ok oldId =>
                let activity' := jset activity "object" (.str oldId)
                let activityType := pyLower (pyStr ((jget o "type").getD (.str "object")))
                match jget activity' "actor" with
                | none => (st, d, .error (.keyError "actor"))
                | some actorV =>
                    let objectUri := pyStr actorV ++ "/" ++ activityType ++ "/" ++ fresh 0
                    let o' := jset (jset o "id" (.str objectUri)) "attributedTo" actorV
                    let st₁ := (memPut st o' (fresh 1)).1
                    outboxFinish outboxUri (fresh 2) st₁ d activity'
        | _ => outboxFinish outboxUri (fresh 2) st d activity
  else
    let p := memPut st activity (fresh 1)
    outboxFinish outboxUri (fresh 2) p.1 d p.2

/-- `ActivityPubTenant._process_outbox(request, box_owner)`: normalize
the posted activity (assign `id = {actor}/{lowercased type}-{uuid}`,
default `actor` and `@context`), run the internal outbox processing,
and answer `200` with a `Location` header naming the activity id. -/
def processOutbox (fresh : Nat → String) (st : Store) (d : List JObj)
    (boxOwner reqJson : JObj) : HandlerResult :=
  match jget boxOwner "id" with
  | none => (st, d, .error (.keyError "id"))
  | some actorUriV =>
      match jget reqJson "type" with
      | none => (st, d, .error (.keyError "type"))
      | some (.str ts) =>
          let newId := pyStr actorUriV ++ "/" ++ pyLower ts ++ "-" ++ fresh 0
          let a₁ := jset reqJson "id" (.str newId)
          let a₂ := if (jget a₁ "actor").isSome then a₁ else jset a₁ "actor" actorUriV
          let a₃ :=
            if (jget a₂ "@context").isSome then a₂
            else jset a₂ "@context" (.str "https://www.w3.org/ns/activitystreams")
          match jget boxOwner "outbox" with
          | none => (st, d, .error (.keyError "outbox"))
          | some obV =>
              match processOutboxInternal (fun n => fresh (n + 1)) st d (pyStr obV) a₃ with
              | (st', d', .error e) => (st', d', .error e)
              | (st', d', .ok act) =>
                  match jget act "id" with
                  | some idV =>
                      (st', d', .ok ⟨200, "OK", "Processed", [("Location", pyStr idV)]⟩)
                  | none => (st', d', .error (.keyError "id"))
      | some _ => (st, d, .error (.attrError "lower"))

/-- `ActivityPubTenant._process_inbox_follow`. -/
def processInboxFollow (fresh : Nat → String) (st : Store) (d : List JObj)
    (auth : Option String) (boxOwner activity : JObj) : HandlerResult :=
  match resourceIdE (jget activity "actor") with
  | .error e => (st, d, .error e)
  | .ok actorUri =>
      match assertAuthorizedActor auth (.str actorUri) with
      | .error e => (st, d, .error e)
      | .ok _ =>
          match resourceIdE (jget activity "object") with
          | .error e => (st, d, .error e)
          | .ok objId =>
              if !((jget boxOwner "id").getD .null == .str objId) then
                (st, d, .error (.http 400 "Mismatch between object and box owner"))
              else if (jget boxOwner "id").getD .null == .str actorUri then
                (st, d, .error (.http 400 "Cannot follow self"))
              else
                let collectionUri := (jget boxOwner "followers").getD .null
                if !truthy collectionUri then
                  (st, d, .error (.http 501 "Following not supported"))
                else
                  match putCollectionItemDefault st (pyStr collectionUri) actorUri (fresh 0) with
                  | .error e => (st, d, .error e)
                  | .ok st₁ =>
                      let acceptId :=
                        pyStr ((jget boxOwner "id").getD .null) ++ "/accept/" ++ fresh 1
                      match jget boxOwner "outbox" with
                      | none => (st₁, d, .error (.keyError "outbox"))
                      | some obV =>
                          let accept : JObj :=
                            [("@context", .str "https://www.w3.org/ns/activitystreams"),
                             ("id", .str acceptId),
                             ("type", .str "Accept"),
                             ("to", .str actorUri),
                             ("actor", (jget boxOwner "id").getD .null),
                             ("object", .obj activity)]
                          match processOutboxInternal (fun n => fresh (n + 2)) st₁ d
                              (pyStr obV) accept with
                          | (st₂, d₂, .error e) => (st₂, d₂, .error e)
                          | (st₂, d₂, .ok _) => (st₂, d₂, .ok okResp)

/-- `ActivityPubTenant._process_inbox_like`. -/
def processInboxLike (fresh : Nat → String) (st : Store) (d : List JObj)
    (auth : Option String) (activity : JObj) : HandlerResult :=
  match assertAuthorizedActor auth ((jget activity "actor").getD .null) with
  | .error e => (st, d, .error e)
  | .ok _ =>
      match resourceIdE (jget activity "object") with
      | .error e => (st, d, .error e)
      | .ok likedUri =>
          match memGet st likedUri with
          | some lo =>
              if lo.isEmpty then (st, d, .error (.http 400 "Unknown liked object"))
              else
                match jget lo "likes" with
                | none => (st, d, .error (.keyError "likes"))
                | some likesV =>
                    match resourceIdE (jget activity "actor") with
                    | .error e => (st, d, .error e)
                    | .ok actorId =>
                        match putCollectionItemDefault st (pyStr likesV) actorId (fresh 0) with
                        | .error e => (st, d, .error e)
                        | .ok st₁ => (st₁, d, .ok okResp)
          | none => (st, d, .error (.http 400 "Unknown liked object"))

/-- `ActivityPubTenant._process_inbox_create`: an embedded object is
persisted separately and the activity's `object` field replaced by its
id before the activity is re-persisted. -/
def processInboxCreate (fresh : Nat → String) (st : Store) (d : List JObj)
    (activity : JObj) : HandlerResult :=
  match jget activity "object" with
  | none => (st, d, .error (.keyError "object"))
  | some aobj =>
      match aobj with
      | .obj o =>
          match resourceIdObj o with
          | .error e => (st, d, .error e)
          | .ok oid =>
              let a' := jset activity "object" (.str oid)
              let st₁ := (memPut st o (fresh 0)).1
              let st₂ := (memPut st₁ a' (fresh 1)).1
              (st₂, d, .ok okResp)
      | _ => (st, d, .ok okResp)

/-- `ActivityPubTenant._process_inbox_undo_follow`.  (The source's
`box_owner_uri is None` test can never fire because `resource_id`
raises rather than returning `None`; it is therefore absent here.) -/
def processInboxUndoFollow (fresh : Nat → String) (st : Store) (d : List JObj)
    (activity : JObj) : HandlerResult :=
  match resourceIdE (resourceGet activity ["object", "object"]) with
  | .error e => (st, d, .error e)
  | .ok boUri =>
      match memGet st boUri with
      | none => (st, d, .error (.http 400 "Unknown box owner"))
      | some bo =>
          match jget bo "followers" with
          | none => (st, d, .error (.keyError "followers"))
          | some colV =>
              if colV == .null then
                (st, d, .error (.http 400 "No followers collection"))
              else
                match resourceIdE (jget activity "actor") with
                | .error e => (st, d, .error e)
                | .ok actorId =>
                    match removeCollectionItem st (pyStr colV) actorId (fresh 0) with
                    | .error e => (st, d, .error e)
                    | .ok st₁ => (st₁, d, .ok okResp)

/-- `ActivityPubTenant._process_inbox_undo_like`. -/
def processInboxUndoLike (fresh : Nat → String) (st : Store) (d : List JObj)
    (activity : JObj) : HandlerResult :=
  match resourceIdE (resourceGet activity ["object", "object"]) with
  | .error e => (st, d, .error e)
  | .ok loUri =>
      match memGet st loUri with
      | some lo =>
          if lo.isEmpty then (st, d, .error (.http 400 "Unable to undo like"))
          else
            match jget lo "likes" with
            | none => (st, d, .error (.keyError "likes"))
            | some colV =>
                if truthy colV then
                  match resourceIdE (jget activity "actor") with
                  | .error e => (st, d, .error e)
                  | .ok actorId =>
                      match removeCollectionItem st (pyStr colV) actorId (fresh 0) with
                      | .error e => (st, d, .error e)
                      | .ok st₁ => (st₁, d, .ok okResp)
                else (st, d, .error (.http 400 "Unable to undo like"))
      | none => (st, d, .error (.http 400 "Unable to undo like"))

/-- `ActivityPubTenant._process_inbox_undo`: dispatch on the type of
the embedded object; anything that is not a `Follow` or `Like` (a
missing embedded object included) raises `501 Not Implemented`. -/
def processInboxUndo (fresh : Nat → String) (st : Store) (d : List JObj)
    (activity : JObj) : HandlerResult :=
  if (resourceGet activity ["object", "type"]).getD .null == .str "Follow" then
    processInboxUndoFollow fresh st d activity
  else if (resourceGet activity ["object", "type"]).getD .null == .str "Like" then
    processInboxUndoLike fresh st d activity
  else (st, d, .error (.http 501 ""))

/-- `ActivityPubTenant._process_inbox(request, box_owner)`: persist the
incoming activity, prepend its URI to the owner's inbox collection,
then dispatch on the activity type (unrecognized types raise `501`). -/
def processInbox (fresh : Nat → String) (st : Store) (d : List JObj)
    (auth : Option String) (boxOwner activity : JObj) : HandlerResult :=
  let p := memPut st activity (fresh 0)
  let st₁ := p.1
  let a' := p.2
  match jget boxOwner "inbox" with
  | none => (st₁, d, .error (.keyError "inbox"))
  | some inboxV =>
      match resourceIdObj a' with
      | .error e => (st₁, d, .error e)
      | .ok aid =>
          match putCollectionItemDefault st₁ (pyStr inboxV) aid (fresh 1) with
          | .error e => (st₁, d, .error e)
          | .ok st₂ =>
              let fresh' := fun n => fresh (n + 2)
              if hasValue a' "type" "Follow" then
                processInboxFollow fresh' st₂ d auth boxOwner a'
              else if hasValue a' "type" "Like" then
                processInboxLike fresh' st₂ d auth a'
              else if hasValue a' "type" "Create" then
                processInboxCreate fresh' st₂ d a'
              else if hasValue a' "type" "Undo" then
                processInboxUndo fresh' st₂ d a'
              else (st₂, d, .error (.http 501 ""))

/-! ## Authorization engine (`firm/auth/authorization.py`) -/

/-- `firm.interfaces.AuthorizationDecision` (frozen dataclass; the
`status_code` field defaults to `HTTPStatus.FORBIDDEN.value = 403`). -/
structure Decision where
  authorized : Bool
  reason : String
  statusCode : Nat
deriving DecidableEq, Repr

/-- An `AuthorizationDecision` built without an explicit status code. -/
def mkDecision (a : Bool) (r : String) : Decision := ⟨a, r, 403⟩

/-- The part of a netloc after the last `@` (userinfo stripped),
as in CPython's `_hostinfo`. -/
def afterLastAt (l : List Char) : List Char :=
  (l.reverse.takeWhile fun c => c ≠ '@').reverse

/-- `urlparse(uri).hostname`: the lowercased host part of the netloc,
or `None` when empty.  (IPv6 bracket syntax is not modelled; no claim
involves it.) -/
def hostnameOf (uri : String) : Option String :=
  let nl := netlocChars (schemeSplit uri.data).2
  let host := lowerChars ((afterLastAt nl).takeWhile fun c => c ≠ ':')
  if host.isEmpty then none else some ⟨host⟩

/-- `CoreAuthorizationService._is_blocked(principal, request_actor_uri)`
where `principal` is the tenant prefix.  Blocked-domain and
blocked-actor values are lists in the data model; a truthy non-list
value is modelled as the `TypeError` Python's `in` would raise for
non-container values (never reached in the verified flows). -/
def isBlocked (st : Store) (pfx requestActorUri : String) : Except PyErr Decision :=
  match queryOne st [("type", .str "firm:Blocks"), ("attributedTo", .str pfx)] with
  | .error e => .error e
  | .ok ob =>
      match ob with
      | some blocks =>
          if blocks.isEmpty then .ok (mkDecision true "Not blocked")
          else
            let bd := (jget blocks "firm:blockedDomain").getD .null
            let domainHit : Except PyErr Bool :=
              if truthy bd then
                match bd with
                | .arr l =>
                    let hnJ :=
                      match hostnameOf requestActorUri with
                      | some h => J.str h
                      | none => J.null
                    .ok (l.contains hnJ)
                | _ => .error (.typeError "argument is not iterable")
              else .ok false
            match domainHit with
            | .error e => .error e
            | .ok true => .ok (mkDecision false "inbox post is blocked for domain")
            | .ok false =>
                let ba := (jget blocks "firm:blockedActor").getD .null
                if truthy ba then
                  match ba with
                  | .arr l =>
                      if l.contains (.str requestActorUri) then
                        .ok (mkDecision false "inbox post is blocked for actor")
                      else .ok (mkDecision true "Not blocked")
                  | _ => .error (.typeError "argument is not iterable")
                else .ok (mkDecision true "Not blocked")
      | none => .ok (mkDecision true "Not blocked")

/-- `firm.auth.authorization.is_activity_actor`: the principal URI
matches the activity's `actor` (string, object id, or list member),
else its `attributedTo` via `get_id`. -/
def isActivityActor (uri : String) (r : JObj) : Except PyErr Bool :=
  let attrib : Except PyErr Bool :=
    match getId (jget r "attributedTo") with
    | .error e => .error e
    | .ok (some a) => if a.data.isEmpty then .ok false else .ok (a == uri)
    | .ok none => .ok false
  let actors := (jget r "actor").getD .null
  if truthy actors then
    match actors with
    | .str s => .ok (s == uri)
    | .obj o =>
        match jget o "id" with
        | some v => .ok (v == .str uri)
        | none => .error (.keyError "id")
    | .arr l => .ok (l.contains (.str uri))
    | _ => attrib
  else attrib

/-- `firm.auth.authorization.get_box_owner`: the stored document whose
`inbox` (else `outbox`) names the resource URI. -/
def getBoxOwner (st : Store) (rid : String) : Except PyErr (Option JObj) :=
  match queryOne st [("inbox", .str rid)] with
  | .error e => .error e
  | .ok r₁ =>
      match r₁ with
      | some o => if o.isEmpty then queryOne st [("outbox", .str rid)] else .ok (some o)
      | none => queryOne st [("outbox", .str rid)]

/-- The inbox-branch denial of `is_get_authorized`, whose reason
depends on whether the request was authenticated; the status code is
the `AuthorizationDecision` default `403`. -/
def inboxDeny (principal : Option String) : Decision :=
  mkDecision false
    (match principal with
     | none => "anonymous inbox read not allowed"
     | some _ => "inbox read allowed only for owner")

/-- `CoreAuthorizationService.is_get_authorized(principal, resource)`
with the principal reduced to its URI.  The debug log line evaluates
`resource["id"]` eagerly, so a resource without an id raises
`KeyError` first. -/
def isGetAuthorized (st : Store) (pfx : String) (principal : Option String)
    (resource : JObj) : Except PyErr Decision :=
  match jget resource "id" with
  | none => .error (.keyError "id")
  | some _ =>
      let blockedCheck : Except PyErr (Option Decision) :=
        match principal with
        | some u =>
            match isBlocked st pfx u with
            | .error e => .error e
            | .ok dec => if !dec.authorized then .ok (some dec) else .ok none
        | none => .ok none
      match blockedCheck with
      | .error e => .error e
      | .ok (some dec) => .ok dec
      | .ok none =>
          if isPublic resource then .ok (mkDecision true "public object")
          else if isActorObject resource then .ok (mkDecision true "allow actor access")
          else
            match resourceIdObj resource with
            | .error e => .error e
            | .ok rid =>
                match queryOne st [("outbox", .str rid)] with
                | .error e => .error e
                | .ok obMatch =>
                    if obMatch.isSome then
                      .ok (mkDecision true "public outbox read is allowed")
                    else
                      match queryOne st [("inbox", .str rid)] with
                      | .error e => .error e
                      | .ok ibMatch =>
                          if ibMatch.isSome then
                            match getBoxOwner st rid with
                            | .error e => .error e
                            | .ok boxOwner =>
                                match boxOwner with
                                | some bo =>
                                    if bo.isEmpty then .ok (inboxDeny principal)
                                    else
                                      match jget bo "id" with
                                      | none => .error (.keyError "id")
                                      | some idV =>
                                          if (principal.any fun u => idV == .str u) then
                                            .ok (mkDecision true
                                              "in/outbox access allowed for owner")
                                          else .ok (inboxDeny principal)
                                | none => .ok (inboxDeny principal)
                          else
                            if (principal.any fun u => isRecipient resource u) then
                              .ok (mkDecision true "object recipient access is allowed")
                            else
                              match principal with
                              | some u =>
                                  if isAttributedUser u resource then
                                    .ok (mkDecision true "object attributed to user")
                                  else
                                    match isActivityActor u resource with
                                    | .error e => .error e
                                    | .ok true =>
                                        .ok (mkDecision true "activity actor is user")
                                    | .ok false => .ok (mkDecision false "no authorization")
                              | none => .ok ⟨false, "authentication required", 401⟩

/-- `CoreAuthorizationService.is_activity_authorized(principal,
activity)`.  The principal is the pair (uri, actor document).
`CoreAuthorizationService.next_auth` is `None`, so unknown types wrap
the activity in a synthetic `Create` and recurse once; `fuel` bounds
that recursion (any `fuel ≥ 2` is exact, since the wrapped activity
always takes the `Create` branch).  The recursive call's decision
object is always truthy in Python, so the unknown-type branch always
reports "Implicit create is allowed" rather than raising. -/
def isActivityAuthorized (fuel : Nat) (st : Store) (principal : Option (String × JObj))
    (activity : JObj) : Except PyErr Decision :=
  if isTypeAny activity ["Add", "Remove"] then
    if (jget activity "object").isNone then .ok ⟨false, "Missing activity object", 400⟩
    else if (jget activity "target").isNone then .ok ⟨false, "Missing activity target", 400⟩
    else
      match resourceIdE (jget activity "target") with
      | .error e => .error e
      | .ok tid =>
          let cond : Except PyErr Bool :=
            match principal, memGet st tid with
            | some (u, actorDoc), some target =>
                if target.isEmpty then .ok false
                else if isPublic target then .ok true
                else if isAttributedUser u target then .ok true
                else
                  match jget target "id" with
                  | none => .error (.keyError "id")
                  | some tidV =>
                      match resourceIdE (some tidV) with
                      | .error e => .error e
                      | .ok turi => .ok (isActorCollection actorDoc turi)
            | _, _ => .ok false
          match cond with
          | .error e => .error e
          | .ok true => .ok (mkDecision true "Public/owned collection changes allowed")
          | .ok false => .ok (mkDecision false "not authorized")
  else if isTypeAny activity
      ["Announce", "Like", "Follow", "Accept", "Reject", "Create", "Block"] then
    .ok (mkDecision true "authorized")
  else if isType activity "Undo" then
    if (jget activity "object").isNone then .ok (mkDecision true "Missing activity")
    else
      match resourceIdE (jget activity "object") with
      | .error e => .error e
      | .ok uid =>
          match memGet st uid with
          | some ua =>
              if !ua.isEmpty && isTypeAny ua ["Follow", "Announce", "Like"] then
                if (jget ua "actor").isNone then .ok (mkDecision true "Missing actor")
                else
                  match principal with
                  | some (u, _) =>
                      match getId (jget ua "actor") with
                      | .error e => .error e
                      | .ok a? =>
                          if a? == some u then .ok (mkDecision true "Same origin/actor")
                          else .ok (mkDecision false "not authorized")
                  | none => .ok (mkDecision false "not authorized")
              else .ok (mkDecision false "not authorized")
          | none => .ok (mkDecision false "not authorized")
  else if isTypeAny activity ["Update", "Delete"] then
    if (jget activity "object").isNone then .ok (mkDecision true "Missing activity")
    else
      match resourceIdE (jget activity "object") with
      | .error e => .error e
      | .ok oid =>
          match memGet st oid with
          | none => .ok ⟨false, "Object not found", 404⟩
          | some obj =>
              if obj.isEmpty then .ok ⟨false, "Object not found", 404⟩
              else
                match principal with
                | some (u, _) =>
                    if isAttributedUser u obj then
                      .ok (mkDecision true "Attributed delete allowed")
                    else .ok (mkDecision false "not authorized")
                | none => .ok (mkDecision false "not authorized")
  else
    match fuel with
    | 0 => .error (.valueError "recursion")
    | fuel' + 1 =>
        match isActivityAuthorized fuel' st principal
            [("type", .str "Create"), ("object", .obj activity)] with
        | .error e => .error e
        | .ok _ => .ok (mkDecision true "Implicit create is allowed")

/-! ## HTTP Basic authentication (`firm/auth/http_basic.py`) -/

/-- Worker for `str.split()`: accumulate the current word (reversed)
and emit words at whitespace boundaries. -/
def splitWsGo : List Char → List Char → List (List Char)
  | [], acc => if acc.isEmpty then [] else [acc.reverse]
  | c :: cs, acc =>
      if c.isWhitespace then
        if acc.isEmpty then splitWsGo cs [] else acc.reverse :: splitWsGo cs []
      else splitWsGo cs (c :: acc)

/-- Python `str.split()` with no argument: split on whitespace runs,
discarding empty pieces. -/
def pySplitWs (s : String) : List String :=
  (splitWsGo s.data []).map fun w => ⟨w⟩

/-- Index of the last `':'` in a character list, if any. -/
def lastColonIdx : List Char → Option Nat
  | [] => none
  | c :: cs =>
      match lastColonIdx cs with
      | some i => some (i + 1)
      | none => if c = ':' then some 0 else none

/-- `decoded.rindex(":")` followed by the slicing
`decoded[:idx], decoded[idx+1:]` — the split of the decoded basic
credentials at the *last* colon.  `none` models the `ValueError` that
`rindex` raises (uncaught in the source) when no colon is present. -/
def splitCredentials (decoded : String) : Option (String × String) :=
  match lastColonIdx decoded.data with
  | none => none
  | some i => some (⟨decoded.data.take i⟩, ⟨decoded.data.drop (i + 1)⟩)

/-- Outcome of `BasicHttpAuthenticator.authenticate`: no identity, a
`Principal` wrapping the (possibly missing) actor document, a raised
`AuthenticationError`, or another escaped Python exception. -/
inductive AuthOutcome where
  | noIdentity
  | principal (actor : Option JObj)
  | authError (msg : String)
  | pyError (e : PyErr)
deriving DecidableEq, Repr

/-- Case-insensitive-ish header lookup is not modelled: the request
headers mapping is an association list looked up exactly. -/
def headerGet : List (String × String) → String → Option String
  | [], _ => none
  | (k', v) :: rest, k => if k' = k then some v else headerGet rest k

/-- Tail of `BasicHttpAuthenticator.authenticate` after the
credentials have been split: look up the `firm:Credentials` document
attributed to the actor URI, verify the password (`verify` models
`verify_hash`, i.e. bcrypt), and wrap the actor as the principal. -/
def credsLookup (verify : String → String → Bool) (st : Store)
    (actorUri password : String) : AuthOutcome :=
  match queryOne st
      [("type", .str "firm:Credentials"), ("attributedTo", .str actorUri)] with
  | .error e => .pyError e
  | .ok cr? =>
      match cr? with
      | some cr =>
          if !cr.isEmpty && (jget cr "firm:password").isSome
              && verify password (pyStr ((jget cr "firm:password").getD .null)) then
            .principal (memGet st actorUri)
          else .noIdentity
      | none => .noIdentity

/-- `BasicHttpAuthenticator.authenticate(request)`.
`decode` models `base64.b64decode(credentials).decode()`; a `none`
result stands for any of the exceptions the source catches there
(`ValueError`, `UnicodeDecodeError`, `binascii.Error`).  The store is
the app-state resource store. -/
def basicAuthenticate (decode : String → Option String)
    (verify : String → String → Bool) (st : Store)
    (headers : List (String × String)) : AuthOutcome :=
  match headerGet headers "Authorization" with
  | none => .noIdentity
  | some auth =>
      match pySplitWs auth with
      | [scheme, credentials] =>
          if pyLower scheme ≠ "basic" then .noIdentity
          else
            match decode credentials with
            | none => .authError "Invalid basic auth credentials"
            | some decoded =>
                match splitCredentials decoded with
                | none => .pyError (.valueError "substring not found")
                | some (actorUri, password) => credsLookup verify st actorUri password
      | _ => .authError "Invalid basic auth credentials"

/-- The matching predicate as the specification words it (for the
refinement comparison in C7): every non-`@` criteria key must be
present in the document, with the document value equal to the criteria
value or a list containing it; absent fields do not match. -/
def specMatch (doc criteria : JObj) : Bool :=
  criteria.all fun kv =>
    if pyStartsWith kv.1 "@" then true
    else
      match jget doc kv.1 with
      | some v =>
          v == kv.2 ||
            (match v with
             | .arr l => l.contains kv.2
             | _ => false)
      | none => false

/-- The amended matching predicate for C7: as the claim, except that
an absent document key is read as the value `null` (so a `null`
criteria value matches an absent field), and a list document value
matches only by membership. -/
def amendedMatch (doc criteria : JObj) : Prop :=
  ∀ kv ∈ criteria, pyStartsWith kv.1 "@" = false →
    (∃ l, (jget doc kv.1).getD .null = .arr l ∧ kv.2 ∈ l)
    ∨ ((∀ l, (jget doc kv.1).getD .null ≠ .arr l)
        ∧ (jget doc kv.1).getD .null = kv.2)

/-! ## Helper lemmas about the dict operations -/

theorem jget_jset_self (o : JObj) (k : String) (v : J) :
    jget (jset o k v) k = some v := by
  induction o with
  | nil => simp [jget, jset]
  | cons kv rest ih =>
      by_cases h : kv.1 = k
      · simp [jset, h, jget]
      · simp [jset, h, jget, ih]

theorem jget_jset_ne (o : JObj) (k k' : String) (v : J) (h : k ≠ k') :
    jget (jset o k v) k' = jget o k' := by
  induction o with
  | nil => simp [jget, jset, h]
  | cons kv rest ih =>
      by_cases hk : kv.1 = k
      · simp [jset, hk, jget, h]
      · by_cases hk' : kv.1 = k'
        · simp [jset, hk, jget, hk', Ne.symm h]
        · simp [jset, hk, jget, hk', ih]

theorem storeLookup_insert_self (st : Store) (k : String) (v : JObj) :
    storeLookup (storeInsert st k v) k = some v := by
  induction st with
  | nil => simp [storeLookup, storeInsert]
  | cons kv rest ih =>
      by_cases h : kv.1 = k
      · simp [storeInsert, h, storeLookup]
      · simp [storeInsert, h, storeLookup, ih]

theorem storeLookup_insert_ne (st : Store) (k k' : String) (v : JObj) (h : k ≠ k') :
    storeLookup (storeInsert st k v) k' = storeLookup st k' := by
  induction st with
  | nil => simp [storeLookup, storeInsert, h]
  | cons kv rest ih =>
      by_cases hk : kv.1 = k
      · simp [storeInsert, hk, storeLookup, h]
      · by_cases hk' : kv.1 = k'
        · simp [storeInsert, hk, storeLookup, hk', Ne.symm h]
        · simp [storeInsert, hk, storeLookup, hk', ih]

/-! ## C6: `query_one` semantics -/

/-- **C6.** For every criteria `c` over a memory store: exactly one
matching stored document `d` makes `query_one` return `d`; no match
returns `None`; two or more matches raise `ValueError`. -/
theorem claim6_query_one (st : Store) (c : JObj) :
    (∀ d, query st c = [d] → queryOne st c = .ok (some d))
    ∧ (query st c = [] → queryOne st c = .ok none)
    ∧ (2 ≤ (query st c).length → ∃ msg, queryOne st c = .error (.valueError msg)) := by
  refine ⟨fun d h => by simp [queryOne, h], fun h => by simp [queryOne, h], fun h => ?_⟩
  match hq : query st c with
  | [] => rw [hq] at h; simp at h
  | [a] => rw [hq] at h; simp at h
  | a :: b :: l => exact ⟨"Multiple matches for query_one", by simp [queryOne, hq]⟩

/-- Witness for C6 on a concrete two-document store: a criteria with a
unique match, one with none, and one with two matches. -/
theorem claim6_query_one_witness :
    queryOne
        [("a", [("id", J.str "a"), ("type", J.str "Note")]),
         ("b", [("id", J.str "b"), ("type", J.str "Note")])]
        [("id", J.str "a")]
      = .ok (some [("id", J.str "a"), ("type", J.str "Note")])
    ∧ queryOne
        [("a", [("id", J.str "a"), ("type", J.str "Note")]),
         ("b", [("id", J.str "b"), ("type", J.str "Note")])]
        [("id", J.str "zzz")]
      = .ok none
    ∧ ∃ msg, queryOne
        [("a", [("id", J.str "a"), ("type", J.str "Note")]),
         ("b", [("id", J.str "b"), ("type", J.str "Note")])]
        [("type", J.str "Note")]
      = .error (.valueError msg) := by
  refine ⟨(claim6_query_one _ _).1 _ (by decide), (claim6_query_one _ _).2.1 (by decide),
    (claim6_query_one _ _).2.2 (by decide)⟩

/-! ## C7: the matching predicate -/

/-- **C7 counterexample.** With criteria value `null` and the key
absent from the document, `is_match` accepts (Python `obj.get` returns
`None`, which equals the criteria value) while the claim requires the
document not to match. -/
theorem claim7_counterexample :
    isMatch [] [("k", J.null)] = true ∧ specMatch [] [("k", J.null)] = false := by
  decide

/-- Per-value form of the `is_match` criterion. -/
theorem matchVal_iff (v c : J) :
    (match v with | .arr l => l.contains c | v' => v' == c) = true
      ↔ (∃ l, v = .arr l ∧ c ∈ l) ∨ ((∀ l, v ≠ .arr l) ∧ v = c) := by
  cases v with
  | arr l =>
      constructor
      · intro h
        exact Or.inl ⟨l, rfl, by simpa [List.contains, List.elem_iff] using h⟩
      · rintro (⟨l', hl', hm⟩ | ⟨hno, _⟩)
        · cases hl'
          simpa [List.contains, List.elem_iff] using hm
        · exact absurd rfl (hno l)
  | null => simp
  | bool b => simp
  | num n => simp
  | str s => simp
  | obj o => simp

/-- **C7 amended.** A document matches criteria iff for every non-`@`
criteria key `k` with value `v`, the document's value at `k` (taken to
be `null` when `k` is absent) is a list containing `v`, or is a
non-list equal to `v`. -/
theorem claim7_is_match (doc criteria : JObj) :
    isMatch doc criteria = true ↔ amendedMatch doc criteria := by
  unfold isMatch amendedMatch
  rw [List.all_eq_true]
  refine forall_congr' fun kv => ?_
  refine forall_congr' fun _ => ?_
  cases hat : pyStartsWith kv.1 "@" with
  | true => simp [hat]
  | false =>
      simp only [hat, Bool.false_eq_true, if_false, forall_const]
      exact matchVal_iff _ _

/-! ## Collection-insertion lemmas (C2, C8) -/

/-- Inserting a fresh URI with `prepend=True` (the dispatch-engine
default) puts it at the head of the items list, whichever items key
the collection's type selects. -/
theorem putCollectionItem_insert (st : Store) (c : JObj) (curi iuri fresh : String)
    (l : List J) (hc : memGet st curi = some c)
    (hid : jget c "id" = some (.str curi))
    (hitems : jget c (if hasValue c "type" "OrderedCollection" then "orderedItems"
        else "items") = some (.arr l))
    (hnotin : J.str iuri ∉ l) :
    putCollectionItem st curi iuri true false fresh
      = .ok (storeInsert st curi
          (jset c (if hasValue c "type" "OrderedCollection" then "orderedItems"
            else "items") (.arr (.str iuri :: l)))) := by
  have hcont : l.contains (J.str iuri) = false := by
    simpa [List.contains, List.elem_iff] using hnotin
  cases htype : hasValue c "type" "OrderedCollection" with
  | true =>
      simp only [htype, if_true] at hitems ⊢
      cases l with
      | nil =>
          simp [putCollectionItem, hc, htype, hitems, truthy, memPut,
            jget_jset_ne _ "orderedItems" "id" _ (by decide), hid, pyStr]
      | cons x xs =>
          simp [putCollectionItem, hc, htype, hitems, truthy, hcont, memPut,
            jget_jset_ne _ "orderedItems" "id" _ (by decide), hid, pyStr]
          intro h
          exact absurd (List.mem_cons.mpr h) hnotin
  | false =>
      simp only [htype, Bool.false_eq_true, if_false] at hitems ⊢
      cases l with
      | nil =>
          simp [putCollectionItem, hc, htype, hitems, truthy, memPut,
            jget_jset_ne _ "items" "id" _ (by decide), hid, pyStr]
      | cons x xs =>
          simp [putCollectionItem, hc, htype, hitems, truthy, hcont, memPut,
            jget_jset_ne _ "items" "id" _ (by decide), hid, pyStr]
          intro h
          exact absurd (List.mem_cons.mpr h) hnotin

/-- Inserting with `prepend=False` appends at the end. -/
theorem putCollectionItem_append (st : Store) (c : JObj) (curi iuri fresh : String)
    (l : List J) (hc : memGet st curi = some c)
    (hid : jget c "id" = some (.str curi))
    (hitems : jget c (if hasValue c "type" "OrderedCollection" then "orderedItems"
        else "items") = some (.arr l))
    (hnotin : J.str iuri ∉ l) :
    putCollectionItem st curi iuri false false fresh
      = .ok (storeInsert st curi
          (jset c (if hasValue c "type" "OrderedCollection" then "orderedItems"
            else "items") (.arr (l ++ [.str iuri])))) := by
  have hcont : l.contains (J.str iuri) = false := by
    simpa [List.contains, List.elem_iff] using hnotin
  cases htype : hasValue c "type" "OrderedCollection" with
  | true =>
      simp only [htype, if_true] at hitems ⊢
      cases l with
      | nil =>
          simp [putCollectionItem, hc, htype, hitems, truthy, memPut,
            jget_jset_ne _ "orderedItems" "id" _ (by decide), hid, pyStr]
      | cons x xs =>
          simp [putCollectionItem, hc, htype, hitems, truthy, hcont, memPut,
            jget_jset_ne _ "orderedItems" "id" _ (by decide), hid, pyStr]
          intro h
          exact absurd (List.mem_cons.mpr h) hnotin
  | false =>
      simp only [htype, Bool.false_eq_true, if_false] at hitems ⊢
      cases l with
      | nil =>
          simp [putCollectionItem, hc, htype, hitems, truthy, memPut,
            jget_jset_ne _ "items" "id" _ (by decide), hid, pyStr]
      | cons x xs =>
          simp [putCollectionItem, hc, htype, hitems, truthy, hcont, memPut,
            jget_jset_ne _ "items" "id" _ (by decide), hid, pyStr]
          intro h
          exact absurd (List.mem_cons.mpr h) hnotin

/-- Inserting a URI already present (duplicates disallowed, the
default) returns without touching the store at all. -/
theorem putCollectionItem_dup (st : Store) (c : JObj) (curi iuri fresh : String)
    (l : List J) (hc : memGet st curi = some c)
    (hitems : jget c (if hasValue c "type" "OrderedCollection" then "orderedItems"
        else "items") = some (.arr l))
    (hin : J.str iuri ∈ l) :
    putCollectionItem st curi iuri true false fresh = .ok st := by
  have hcont : l.contains (J.str iuri) = true := by
    simpa [List.contains, List.elem_iff] using hin
  cases l with
  | nil => cases hin
  | cons x xs =>
      cases htype : hasValue c "type" "OrderedCollection" with
      | true =>
          simp only [htype, if_true] at hitems
          simp [putCollectionItem, hc, htype, hitems, truthy, hcont]
          intro h₁ h₂
          rcases List.mem_cons.mp hin with h | h
          · exact absurd h h₁
          · exact absurd h h₂
      | false =>
          simp only [htype, Bool.false_eq_true, if_false] at hitems
          simp [putCollectionItem, hc, htype, hitems, truthy, hcont]
          intro h₁ h₂
          rcases List.mem_cons.mp hin with h | h
          · exact absurd h h₁
          · exact absurd h h₂

/-! ## C2: items-key selection and insertion order -/

/-- **C2 counterexample.** A plain `Collection` holding `items = [a]`
receives a new URI `b` at the *front* (the `prepend=True` default),
producing `[b, a]` rather than the append order `[a, b]` the claim
states. -/
theorem claim2_counterexample :
    putCollectionItemDefault
        [("http://t.test/c",
          [("id", J.str "http://t.test/c"), ("type", J.str "Collection"),
           ("items", J.arr [J.str "http://t.test/a"])])]
        "http://t.test/c" "http://t.test/b" "u0"
      = .ok [("http://t.test/c",
          [("id", J.str "http://t.test/c"), ("type", J.str "Collection"),
           ("items", J.arr [J.str "http://t.test/b", J.str "http://t.test/a"])])]
    ∧ J.arr [J.str "http://t.test/b", J.str "http://t.test/a"]
        ≠ J.arr [J.str "http://t.test/a", J.str "http://t.test/b"] := by
  decide

/-- **C2 amended.** The items key is selected by the collection's
declared type (`orderedItems` iff it includes `OrderedCollection`,
else `items`), but the insertion position is governed solely by the
`prepend` parameter — `True` at every dispatch-engine call site — so
by default both collection kinds receive new items at the front;
append order happens only when `prepend=False` is passed. -/
theorem claim2_collection_insertion (st : Store) (c : JObj) (curi iuri fresh : String)
    (l : List J) (hc : memGet st curi = some c)
    (hid : jget c "id" = some (.str curi))
    (hitems : jget c (if hasValue c "type" "OrderedCollection" then "orderedItems"
        else "items") = some (.arr l))
    (hnotin : J.str iuri ∉ l) :
    (hasValue c "type" "OrderedCollection" = true →
        putCollectionItemDefault st curi iuri fresh
          = .ok (storeInsert st curi (jset c "orderedItems" (.arr (.str iuri :: l)))))
    ∧ (hasValue c "type" "OrderedCollection" = false →
        putCollectionItemDefault st curi iuri fresh
          = .ok (storeInsert st curi (jset c "items" (.arr (.str iuri :: l)))))
    ∧ putCollectionItem st curi iuri false false fresh
        = .ok (storeInsert st curi
            (jset c (if hasValue c "type" "OrderedCollection" then "orderedItems"
              else "items") (.arr (l ++ [.str iuri])))) := by
  refine ⟨fun htype => ?_, fun htype => ?_,
    putCollectionItem_append st c curi iuri fresh l hc hid hitems hnotin⟩
  · have h := putCollectionItem_insert st c curi iuri fresh l hc hid hitems hnotin
    rw [htype] at h
    simpa using h
  · have h := putCollectionItem_insert st c curi iuri fresh l hc hid hitems hnotin
    rw [htype] at h
    simpa using h

/-- Witness for C2's amended statement: a `Collection` with one item
gets the new URI at the front; with `prepend=False` it would have been
appended. -/
theorem claim2_collection_insertion_witness :
    putCollectionItemDefault
        [("c1", [("id", J.str "c1"), ("type", J.str "Collection"),
          ("items", J.arr [J.str "a"])])]
        "c1" "b" "u0"
      = .ok [("c1", [("id", J.str "c1"), ("type", J.str "Collection"),
          ("items", J.arr [J.str "b", J.str "a"])])]
    ∧ putCollectionItem
        [("c1", [("id", J.str "c1"), ("type", J.str "Collection"),
          ("items", J.arr [J.str "a"])])]
        "c1" "b" false false "u0"
      = .ok [("c1", [("id", J.str "c1"), ("type", J.str "Collection"),
          ("items", J.arr [J.str "a", J.str "b"])])] := by
  constructor
  · exact (claim2_collection_insertion
      [("c1", [("id", J.str "c1"), ("type", J.str "Collection"),
        ("items", J.arr [J.str "a"])])]
      [("id", J.str "c1"), ("type", J.str "Collection"), ("items", J.arr [J.str "a"])]
      "c1" "b" "u0" [J.str "a"]
      (by decide) (by decide) (by decide) (by decide)).2.1 (by decide)
  · exact (claim2_collection_insertion
      [("c1", [("id", J.str "c1"), ("type", J.str "Collection"),
        ("items", J.arr [J.str "a"])])]
      [("id", J.str "c1"), ("type", J.str "Collection"), ("items", J.arr [J.str "a"])]
      "c1" "b" "u0" [J.str "a"]
      (by decide) (by decide) (by decide) (by decide)).2.2

/-! ## C8: OrderedCollection insertion is newest-first and idempotent -/

/-- **C8.** Inserting a URI into an `OrderedCollection` through the
dispatch engine places it at index 0 of `orderedItems`; re-inserting
the same URI (duplicates disallowed by default) leaves the store — and
hence the collection's membership — entirely unchanged. -/
theorem claim8_ordered_insert_idempotent (st : Store) (c : JObj)
    (curi iuri f₁ f₂ : String) (l : List J)
    (hc : memGet st curi = some c)
    (htype : hasValue c "type" "OrderedCollection" = true)
    (hid : jget c "id" = some (.str curi))
    (hitems : jget c "orderedItems" = some (.arr l))
    (hnotin : J.str iuri ∉ l) :
    putCollectionItemDefault st curi iuri f₁
      = .ok (storeInsert st curi (jset c "orderedItems" (.arr (.str iuri :: l))))
    ∧ putCollectionItemDefault
        (storeInsert st curi (jset c "orderedItems" (.arr (.str iuri :: l))))
        curi iuri f₂
      = .ok (storeInsert st curi (jset c "orderedItems" (.arr (.str iuri :: l)))) := by
  have hitems' : jget c (if hasValue c "type" "OrderedCollection" then "orderedItems"
      else "items") = some (.arr l) := by simp [htype, hitems]
  constructor
  · have h := putCollectionItem_insert st c curi iuri f₁ l hc hid hitems' hnotin
    rw [htype] at h
    simpa using h
  · set c' := jset c "orderedItems" (.arr (.str iuri :: l)) with hc'
    have hgetc' : memGet (storeInsert st curi c') curi = some c' :=
      storeLookup_insert_self st curi c'
    have htypec' : hasValue c' "type" "OrderedCollection" = true := by
      have hty : jget c' "type" = jget c "type" :=
        jget_jset_ne c "orderedItems" "type" _ (by decide)
      unfold hasValue at htype ⊢
      rw [hty]
      exact htype
    have hitemsc' : jget c' (if hasValue c' "type" "OrderedCollection" then "orderedItems"
        else "items") = some (.arr (.str iuri :: l)) := by
      rw [htypec']
      simpa using jget_jset_self c "orderedItems" (.arr (.str iuri :: l))
    exact putCollectionItem_dup (storeInsert st curi c') c' curi iuri f₂
      (.str iuri :: l) hgetc' hitemsc' (List.mem_cons_self _ _)

/-- Witness for C8 on a concrete store. -/
theorem claim8_ordered_insert_idempotent_witness :
    putCollectionItemDefault
        [("c2", [("id", J.str "c2"), ("type", J.str "OrderedCollection"),
          ("orderedItems", J.arr [J.str "a"])])]
        "c2" "b" "u1"
      = .ok [("c2", [("id", J.str "c2"), ("type", J.str "OrderedCollection"),
          ("orderedItems", J.arr [J.str "b", J.str "a"])])]
    ∧ putCollectionItemDefault
        [("c2", [("id", J.str "c2"), ("type", J.str "OrderedCollection"),
          ("orderedItems", J.arr [J.str "b", J.str "a"])])]
        "c2" "b" "u2"
      = .ok [("c2", [("id", J.str "c2"), ("type", J.str "OrderedCollection"),
          ("orderedItems", J.arr [J.str "b", J.str "a"])])] := by
  have h := claim8_ordered_insert_idempotent
    [("c2", [("id", J.str "c2"), ("type", J.str "OrderedCollection"),
      ("orderedItems", J.arr [J.str "a"])])]
    [("id", J.str "c2"), ("type", J.str "OrderedCollection"),
      ("orderedItems", J.arr [J.str "a"])]
    "c2" "b" "u1" "u2" [J.str "a"]
    (by decide) (by decide) (by decide) (by decide) (by decide)
  exact ⟨h.1, h.2⟩

/-! ## C5: prefix routing -/

/-- The URL prefix of any `urn:`-initial character list is `urn://`
followed by a (usually empty) netloc. -/
theorem pfxChars_urn (cs : List Char) :
    pfxChars ('u' :: 'r' :: 'n' :: ':' :: cs)
      = 'u' :: 'r' :: 'n' :: ':' :: '/' :: '/' :: netlocChars cs := rfl

theorem isPrivatePfx_urn (cs : List Char) :
    isPrivatePfx ⟨'u' :: 'r' :: 'n' :: ':' :: cs⟩ = true := by
  simp [isPrivatePfx, List.isPrefixOf]

/-- Any prefix spelled `urn:...` routes to the private partition. -/
theorem storeForPfx_urn (tenants : List String) (cs : List Char) :
    storeForPfx tenants ⟨'u' :: 'r' :: 'n' :: ':' :: cs⟩ = .ok .priv := by
  unfold storeForPfx
  rw [show urlPfx ⟨'u' :: 'r' :: 'n' :: ':' :: cs⟩
      = ⟨'u' :: 'r' :: 'n' :: ':' :: '/' :: '/' :: netlocChars cs⟩ from
    congrArg String.mk (pfxChars_urn cs)]
  unfold storeForPfxCanon
  rw [isPrivatePfx_urn]
  rfl

/-- A canonical, non-private prefix configured as a tenant routes to
that tenant's partition. -/
theorem storeForPfx_tenant (tenants : List String) (t : String)
    (h₂ : urlPfx t = t) (h₃ : isPrivatePfx t = false)
    (h₄ : tenants.contains t = true) :
    storeForPfx tenants t = .ok (.tenant t) := by
  unfold storeForPfx storeForPfxCanon
  rw [h₂, h₃, h₄]
  rfl

/-- A non-private prefix not configured as a tenant routes to the
remote partition. -/
theorem storeForPfx_remote (tenants : List String) (p : String)
    (h₂ : urlPfx p = p) (h₃ : isPrivatePfx p = false)
    (h₄ : tenants.contains p = false) :
    storeForPfx tenants p = .ok .remote := by
  unfold storeForPfx storeForPfxCanon
  rw [h₂, h₃, h₄]
  rfl

/-- **C5.** The prefix store routes every URI to exactly one
partition: a `urn:` URI to the private partition; a non-private URI
whose scheme+host(+port) prefix is a configured (canonical) tenant
prefix to that tenant's partition; any other URI to the remote
partition — and never to a different tenant's partition. -/
theorem claim5_prefix_routing (tenants : List String) (uri t : String) :
    (∀ cs, uri = ⟨'u' :: 'r' :: 'n' :: ':' :: cs⟩ →
        storeForUri tenants uri = .ok .priv)
    ∧ (urlPfx uri = t → urlPfx t = t → isPrivatePfx t = false →
        tenants.contains t = true →
        storeForUri tenants uri = .ok (.tenant t))
    ∧ (urlPfx (urlPfx uri) = urlPfx uri → isPrivatePfx (urlPfx uri) = false →
        tenants.contains (urlPfx uri) = false →
        storeForUri tenants uri = .ok .remote)
    ∧ (∀ t', urlPfx uri = t → urlPfx t = t → isPrivatePfx t = false →
        tenants.contains t = true → t' ≠ t →
        storeForUri tenants uri ≠ .ok (.tenant t')) := by
  refine ⟨?_, ?_, ?_, ?_⟩
  · rintro cs rfl
    unfold storeForUri
    rw [show urlPfx ⟨'u' :: 'r' :: 'n' :: ':' :: cs⟩
        = ⟨'u' :: 'r' :: 'n' :: ':' :: '/' :: '/' :: netlocChars cs⟩ from
      congrArg String.mk (pfxChars_urn cs)]
    exact storeForPfx_urn tenants _
  · intro h₁ h₂ h₃ h₄
    unfold storeForUri
    rw [h₁]
    exact storeForPfx_tenant tenants t h₂ h₃ h₄
  · intro h₂ h₃ h₄
    unfold storeForUri
    exact storeForPfx_remote tenants (urlPfx uri) h₂ h₃ h₄
  · intro t' h₁ h₂ h₃ h₄ hne
    unfold storeForUri
    rw [h₁, storeForPfx_tenant tenants t h₂ h₃ h₄]
    intro heq
    cases heq
    exact hne rfl

/-- Witness for C5 with tenants `https://a.test` and `https://b.test`:
a `urn:` URI is private, `https://a.test/x` goes to tenant
`https://a.test` (and not to `https://b.test`), and `https://c.test/z`
goes to the remote partition. -/
theorem claim5_prefix_routing_witness :
    storeForUri ["https://a.test", "https://b.test"] "urn:uuid:9" = .ok .priv
    ∧ storeForUri ["https://a.test", "https://b.test"] "https://a.test/x"
        = .ok (.tenant "https://a.test")
    ∧ storeForUri ["https://a.test", "https://b.test"] "https://c.test/z" = .ok .remote
    ∧ storeForUri ["https://a.test", "https://b.test"] "https://a.test/x"
        ≠ .ok (.tenant "https://b.test") := by
  refine ⟨?_, ?_, ?_, ?_⟩
  · exact (claim5_prefix_routing ["https://a.test", "https://b.test"] "urn:uuid:9"
      "https://a.test").1 ['u', 'u', 'i', 'd', ':', '9'] (by decide)
  · exact (claim5_prefix_routing ["https://a.test", "https://b.test"] "https://a.test/x"
      "https://a.test").2.1 (by decide) (by decide) (by decide) (by decide)
  · exact (claim5_prefix_routing ["https://a.test", "https://b.test"] "https://c.test/z"
      "https://c.test").2.2.1 (by decide) (by decide) (by decide)
  · exact (claim5_prefix_routing ["https://a.test", "https://b.test"] "https://a.test/x"
      "https://a.test").2.2.2 "https://b.test" (by decide) (by decide) (by decide)
      (by decide) (by decide)

/-! ## C3: GET authorization for an inbox -/

/-- **C3 counterexample.** On a store holding an actor and its inbox
collection, an anonymous GET of the inbox is denied with the
`AuthorizationDecision` *default* status code `403` (reason
"anonymous inbox read not allowed"), not the `401` the claim
states. -/
theorem claim3_counterexample :
    isGetAuthorized
        [("http://t.test/u2",
          [("id", J.str "http://t.test/u2"), ("type", J.str "Person"),
           ("inbox", J.str "http://t.test/inbox"),
           ("outbox", J.str "http://t.test/outbox")]),
         ("http://t.test/inbox",
          [("id", J.str "http://t.test/inbox"),
           ("type", J.str "OrderedCollection"),
           ("attributedTo", J.str "http://t.test/u2")])]
        "http://t.test" none
        [("id", J.str "http://t.test/inbox"),
         ("type", J.str "OrderedCollection"),
         ("attributedTo", J.str "http://t.test/u2")]
      = .ok ⟨false, "anonymous inbox read not allowed", 403⟩ := by
  decide

/-- **C3 amended.** For a GET of a resource that is some actor's inbox
(and not public, not an actor object, not an outbox, with no block
list configured), access is allowed only to the box owner; an
anonymous request and an authenticated non-owner are both denied with
status `403` (with distinct reasons). -/
theorem claim3_inbox_get (st : Store) (pfx rid ownerId : String) (resource bo : JObj)
    (hid : jget resource "id" = some (.str rid))
    (hpub : isPublic resource = false)
    (hactor : isActorObject resource = false)
    (hnoblocks : query st [("type", .str "firm:Blocks"), ("attributedTo", .str pfx)] = [])
    (hout : query st [("outbox", .str rid)] = [])
    (hin : query st [("inbox", .str rid)] = [bo])
    (hbo : bo ≠ [])
    (hboid : jget bo "id" = some (.str ownerId)) :
    isGetAuthorized st pfx none resource
        = .ok ⟨false, "anonymous inbox read not allowed", 403⟩
    ∧ (∀ u, u ≠ ownerId →
        isGetAuthorized st pfx (some u) resource
          = .ok ⟨false, "inbox read allowed only for owner", 403⟩)
    ∧ isGetAuthorized st pfx (some ownerId) resource
        = .ok ⟨true, "in/outbox access allowed for owner", 403⟩ := by
  have hrid : resourceIdObj resource = .ok rid := by
    simp [resourceIdObj, resourceIdE, hid, pyStr]
  have hqOut : queryOne st [("outbox", .str rid)] = .ok none := by
    simp [queryOne, hout]
  have hqIn : queryOne st [("inbox", .str rid)] = .ok (some bo) := by
    simp [queryOne, hin]
  have hqBlocks : queryOne st [("type", .str "firm:Blocks"),
      ("attributedTo", .str pfx)] = .ok none := by
    simp [queryOne, hnoblocks]
  have hboE : bo.isEmpty = false := by
    cases bo with
    | nil => exact absurd rfl hbo
    | cons a l => rfl
  have hgbo : getBoxOwner st rid = .ok (some bo) := by
    simp [getBoxOwner, hqIn, hboE]
  refine ⟨?_, fun u hu => ?_, ?_⟩
  · simp [isGetAuthorized, hid, hpub, hactor, hrid, hqOut, hqIn, hgbo, hboE, hboid,
      inboxDeny, mkDecision]
  · simp [isGetAuthorized, hid, hpub, hactor, hrid, hqOut, hqIn, hgbo, hboE, hboid,
      inboxDeny, mkDecision, isBlocked, hqBlocks, Ne.symm hu]
  · simp [isGetAuthorized, hid, hpub, hactor, hrid, hqOut, hqIn, hgbo, hboE, hboid,
      inboxDeny, mkDecision, isBlocked, hqBlocks]

/-- Witness for C3's amended statement on the concrete store of the
counterexample: anonymous and non-owner denied with 403, the owner
allowed. -/
theorem claim3_inbox_get_witness :
    isGetAuthorized
        [("http://t.test/u2",
          [("id", J.str "http://t.test/u2"), ("type", J.str "Person"),
           ("inbox", J.str "http://t.test/inbox"),
           ("outbox", J.str "http://t.test/outbox")]),
         ("http://t.test/inbox",
          [("id", J.str "http://t.test/inbox"),
           ("type", J.str "OrderedCollection"),
           ("attributedTo", J.str "http://t.test/u2")])]
        "http://t.test" (some "http://r.test/u9")
        [("id", J.str "http://t.test/inbox"),
         ("type", J.str "OrderedCollection"),
         ("attributedTo", J.str "http://t.test/u2")]
      = .ok ⟨false, "inbox read allowed only for owner", 403⟩
    ∧ isGetAuthorized
        [("http://t.test/u2",
          [("id", J.str "http://t.test/u2"), ("type", J.str "Person"),
           ("inbox", J.str "http://t.test/inbox"),
           ("outbox", J.str "http://t.test/outbox")]),
         ("http://t.test/inbox",
          [("id", J.str "http://t.test/inbox"),
           ("type", J.str "OrderedCollection"),
           ("attributedTo", J.str "http://t.test/u2")])]
        "http://t.test" (some "http://t.test/u2")
        [("id", J.str "http://t.test/inbox"),
         ("type", J.str "OrderedCollection"),
         ("attributedTo", J.str "http://t.test/u2")]
      = .ok ⟨true, "in/outbox access allowed for owner", 403⟩ := by
  have h := claim3_inbox_get
    [("http://t.test/u2",
      [("id", J.str "http://t.test/u2"), ("type", J.str "Person"),
       ("inbox", J.str "http://t.test/inbox"),
       ("outbox", J.str "http://t.test/outbox")]),
     ("http://t.test/inbox",
      [("id", J.str "http://t.test/inbox"),
       ("type", J.str "OrderedCollection"),
       ("attributedTo", J.str "http://t.test/u2")])]
    "http://t.test" "http://t.test/inbox" "http://t.test/u2"
    [("id", J.str "http://t.test/inbox"),
     ("type", J.str "OrderedCollection"),
     ("attributedTo", J.str "http://t.test/u2")]
    [("id", J.str "http://t.test/u2"), ("type", J.str "Person"),
     ("inbox", J.str "http://t.test/inbox"),
     ("outbox", J.str "http://t.test/outbox")]
    (by decide) (by decide) (by decide) (by decide) (by decide) (by decide)
    (by decide) (by decide)
  exact ⟨h.2.1 "http://r.test/u9" (by decide), h.2.2⟩

/-! ## C4: Undo with a missing embedded activity -/

/-- **C4 counterexample.** POSTing an Undo with no embedded `object`
to an inbox does *not* produce a `200` with a "missing activity"
reason: `_process_inbox_undo` finds no recognizable type and raises
`501 Not Implemented`. -/
theorem claim4_counterexample :
    (processInbox (fun _ => "uid")
        [("http://t.test/u2",
          [("id", J.str "http://t.test/u2"), ("type", J.str "Person"),
           ("inbox", J.str "http://t.test/inbox"),
           ("outbox", J.str "http://t.test/outbox")]),
         ("http://t.test/inbox",
          [("id", J.str "http://t.test/inbox"),
           ("type", J.str "OrderedCollection"),
           ("attributedTo", J.str "http://t.test/u2")])]
        [] (some "http://r.test/u1")
        [("id", J.str "http://t.test/u2"), ("type", J.str "Person"),
         ("inbox", J.str "http://t.test/inbox"),
         ("outbox", J.str "http://t.test/outbox")]
        [("id", J.str "http://r.test/undo1"), ("type", J.str "Undo"),
         ("actor", J.str "http://r.test/u1")]).2.2
      = .error (.http 501 "") := by
  decide

/-- **C4 amended.** For an Undo activity with no embedded `object`,
the *authorization engine* is permissive — `is_activity_authorized`
returns an authorized decision with reason "Missing activity" — but
the inbox Undo handler itself then raises `501 Not Implemented`
rather than answering `200`. -/
theorem claim4_undo_missing_object (st : Store) (fuel : Nat)
    (p : Option (String × JObj)) (activity : JObj) (fresh : Nat → String)
    (d : List JObj)
    (htype : jget activity "type" = some (.str "Undo"))
    (hnoobj : jget activity "object" = none) :
    isActivityAuthorized fuel st p activity = .ok ⟨true, "Missing activity", 403⟩
    ∧ processInboxUndo fresh st d activity = (st, d, .error (.http 501 "")) := by
  constructor
  · have hAdd : isTypeAny activity ["Add", "Remove"] = false := by
      simp [isTypeAny, isType, hasValue, htype]
    have hAllow : isTypeAny activity
        ["Announce", "Like", "Follow", "Accept", "Reject", "Create", "Block"]
          = false := by
      simp [isTypeAny, isType, hasValue, htype]
    have hUndo : isType activity "Undo" = true := by
      simp [isType, hasValue, htype]
    cases fuel with
    | zero => simp [isActivityAuthorized, hAdd, hAllow, hUndo, hnoobj, mkDecision]
    | succ fuel' => simp [isActivityAuthorized, hAdd, hAllow, hUndo, hnoobj, mkDecision]
  · have hrg : resourceGet activity ["object", "type"] = none := by
      simp [resourceGet, resourceGetGo, hnoobj]
    simp [processInboxUndo, hrg]

/-- Witness for C4's amended statement at a concrete Undo activity. -/
theorem claim4_undo_missing_object_witness :
    isActivityAuthorized 2
        [("http://t.test/u2", [("id", J.str "http://t.test/u2")])]
        (some ("http://r.test/u1", [("id", J.str "http://r.test/u1")]))
        [("id", J.str "http://r.test/undo1"), ("type", J.str "Undo"),
         ("actor", J.str "http://r.test/u1")]
      = .ok ⟨true, "Missing activity", 403⟩
    ∧ processInboxUndo (fun _ => "uid")
        [("http://t.test/u2", [("id", J.str "http://t.test/u2")])] []
        [("id", J.str "http://r.test/undo1"), ("type", J.str "Undo"),
         ("actor", J.str "http://r.test/u1")]
      = ([("http://t.test/u2", [("id", J.str "http://t.test/u2")])], [],
         .error (.http 501 "")) := by
  exact claim4_undo_missing_object
    [("http://t.test/u2", [("id", J.str "http://t.test/u2")])] 2
    (some ("http://r.test/u1", [("id", J.str "http://r.test/u1")]))
    [("id", J.str "http://r.test/undo1"), ("type", J.str "Undo"),
     ("actor", J.str "http://r.test/u1")]
    (fun _ => "uid") [] (by decide) (by decide)

/-! ## C9: HTTP Basic authentication parsing -/

theorem lastColonIdx_eq_none (r : List Char) (h : ':' ∉ r) :
    lastColonIdx r = none := by
  induction r with
  | nil => rfl
  | cons c cs ih =>
      have hc : c ≠ ':' := fun hc => h (hc ▸ List.mem_cons_self c cs)
      have hcs : ':' ∉ cs := fun hm => h (List.mem_cons_of_mem c hm)
      simp [lastColonIdx, ih hcs, hc]

theorem lastColonIdx_append (l r : List Char) (h : ':' ∉ r) :
    lastColonIdx (l ++ ':' :: r) = some l.length := by
  induction l with
  | nil => simp [lastColonIdx, lastColonIdx_eq_none r h]
  | cons c cs ih => simp [lastColonIdx, ih]

/-- The credentials split lands at the *last* colon: with a colon-free
password, `decoded = actor ++ ":" ++ password` splits back into the
pair. -/
theorem splitCredentials_append (pre post : String) (h : ':' ∉ post.data) :
    splitCredentials (pre ++ ":" ++ post) = some (pre, post) := by
  have hdata : (pre ++ ":" ++ post).data = pre.data ++ ':' :: post.data := by
    have h₁ : (pre ++ ":" ++ post).data = (pre.data ++ [':']) ++ post.data := rfl
    rw [h₁, List.append_assoc]
    rfl
  have htake : (pre.data ++ ':' :: post.data).take pre.data.length = pre.data :=
    List.take_left pre.data _
  have hdrop : (pre.data ++ ':' :: post.data).drop (pre.data.length + 1)
      = post.data := by
    have h₂ : pre.data ++ ':' :: post.data = (pre.data ++ [':']) ++ post.data := by
      simp
    rw [h₂, show pre.data.length + 1 = (pre.data ++ [':']).length by simp]
    exact List.drop_left _ _
  unfold splitCredentials
  rw [hdata, lastColonIdx_append pre.data post.data h]
  show some (⟨(pre.data ++ ':' :: post.data).take pre.data.length⟩,
      (⟨(pre.data ++ ':' :: post.data).drop (pre.data.length + 1)⟩ : String))
    = some (pre, post)
  rw [htake, hdrop]

/-- **C9.** `BasicHttpAuthenticator.authenticate` base64-decodes the
credentials and splits the decoded string at the *last* colon into
(actor URI, password); every failure of the decoding step (including a
malformed `Authorization` value that does not split into exactly two
tokens) raises `AuthenticationError` — a typed outcome distinct from
returning no identity. -/
theorem claim9_basic_auth (decode : String → Option String)
    (verify : String → String → Bool) (st : Store)
    (headers : List (String × String)) (auth scheme credentials : String)
    (hdr : headerGet headers "Authorization" = some auth) :
    (pySplitWs auth = [scheme, credentials] → pyLower scheme = "basic" →
        decode credentials = none →
        basicAuthenticate decode verify st headers
          = .authError "Invalid basic auth credentials")
    ∧ ((∀ s c, pySplitWs auth ≠ [s, c]) →
        basicAuthenticate decode verify st headers
          = .authError "Invalid basic auth credentials")
    ∧ (∀ pre post, pySplitWs auth = [scheme, credentials] →
        pyLower scheme = "basic" →
        decode credentials = some (pre ++ ":" ++ post) → ':' ∉ post.data →
        basicAuthenticate decode verify st headers = credsLookup verify st pre post)
    ∧ (∀ msg, AuthOutcome.authError msg ≠ AuthOutcome.noIdentity) := by
  refine ⟨fun hsplit hscheme hdec => ?_, fun hbad => ?_,
    fun pre post hsplit hscheme hdec hpost => ?_, fun msg h => by cases h⟩
  · simp [basicAuthenticate, hdr, hsplit, hscheme, hdec]
  · match hsp : pySplitWs auth with
    | [] => simp [basicAuthenticate, hdr, hsp]
    | [s] => simp [basicAuthenticate, hdr, hsp]
    | [s, c] => exact absurd hsp (hbad s c)
    | s :: c :: x :: rest => simp [basicAuthenticate, hdr, hsp]
  · simp [basicAuthenticate, hdr, hsplit, hscheme, hdec,
      splitCredentials_append pre post hpost]

/-- Witness for C9: a malformed base64 blob raises the typed
authentication error; a well-formed `user:pass` decoding reaches the
credential lookup split at the last colon. -/
theorem claim9_basic_auth_witness :
    basicAuthenticate (fun _ => none) (fun _ _ => true) []
        [("Authorization", "Basic !!!")]
      = .authError "Invalid basic auth credentials"
    ∧ basicAuthenticate (fun _ => some "http://t.test/u:a:pw") (fun _ _ => true) []
        [("Authorization", "Basic x")]
      = credsLookup (fun _ _ => true) [] "http://t.test/u:a" "pw" := by
  constructor
  · exact (claim9_basic_auth (fun _ => none) (fun _ _ => true) []
      [("Authorization", "Basic !!!")] "Basic !!!" "Basic" "!!!" (by decide)).1
      (by decide) (by decide) rfl
  · exact (claim9_basic_auth (fun _ => some "http://t.test/u:a:pw") (fun _ _ => true)
      [] [("Authorization", "Basic x")] "Basic x" "Basic" "x" (by decide)).2.2.1
      "http://t.test/u:a" "pw" (by decide) (by decide) rfl (by decide)

/-! ## C1: outbox POST processing -/

/-- **C1.** Evaluating `_process_outbox` at a `Create` activity with an
embedded object (the failing input for the claim): the response is
`200` with a `Location` header naming the freshly assigned activity
id, that id is prepended to the owner's outbox collection, and the
activity is handed to `DeliveryService.deliver` — but the `Create`
activity itself is never persisted, so the id advertised in
`Location` and in the outbox does not dereference in the final store.
A non-`Create` activity (here a `Like`) posted the same way *is*
persisted. -/
theorem claim1_outbox_create_not_persisted :
    (processOutbox (fun _ => "uid")
        [("http://t.test/u2",
          [("id", J.str "http://t.test/u2"), ("type", J.str "Person"),
           ("outbox", J.str "http://t.test/outbox")]),
         ("http://t.test/outbox",
          [("id", J.str "http://t.test/outbox"),
           ("type", J.str "OrderedCollection"),
           ("attributedTo", J.str "http://t.test/u2")])]
        [] [("id", J.str "http://t.test/u2"), ("type", J.str "Person"),
            ("outbox", J.str "http://t.test/outbox")]
        [("type", J.str "Create"),
         ("object", J.obj [("id", J.str "http://t.test/u2/doc"),
           ("type", J.str "Document"), ("content", J.str "hi")])]).2.2
      = .ok ⟨200, "OK", "Processed",
          [("Location", "http://t.test/u2/create-uid")]⟩
    ∧ jget ((memGet (processOutbox (fun _ => "uid")
        [("http://t.test/u2",
          [("id", J.str "http://t.test/u2"), ("type", J.str "Person"),
           ("outbox", J.str "http://t.test/outbox")]),
         ("http://t.test/outbox",
          [("id", J.str "http://t.test/outbox"),
           ("type", J.str "OrderedCollection"),
           ("attributedTo", J.str "http://t.test/u2")])]
        [] [("id", J.str "http://t.test/u2"), ("type", J.str "Person"),
            ("outbox", J.str "http://t.test/outbox")]
        [("type", J.str "Create"),
         ("object", J.obj [("id", J.str "http://t.test/u2/doc"),
           ("type", J.str "Document"), ("content", J.str "hi")])]).1
        "http://t.test/outbox").getD []) "orderedItems"
      = some (.arr [.str "http://t.test/u2/create-uid"])
    ∧ (processOutbox (fun _ => "uid")
        [("http://t.test/u2",
          [("id", J.str "http://t.test/u2"), ("type", J.str "Person"),
           ("outbox", J.str "http://t.test/outbox")]),
         ("http://t.test/outbox",
          [("id", J.str "http://t.test/outbox"),
           ("type", J.str "OrderedCollection"),
           ("attributedTo", J.str "http://t.test/u2")])]
        [] [("id", J.str "http://t.test/u2"), ("type", J.str "Person"),
            ("outbox", J.str "http://t.test/outbox")]
        [("type", J.str "Create"),
         ("object", J.obj [("id", J.str "http://t.test/u2/doc"),
           ("type", J.str "Document"), ("content", J.str "hi")])]).2.1.length = 1
    ∧ memGet (processOutbox (fun _ => "uid")
        [("http://t.test/u2",
          [("id", J.str "http://t.test/u2"), ("type", J.str "Person"),
           ("outbox", J.str "http://t.test/outbox")]),
         ("http://t.test/outbox",
          [("id", J.str "http://t.test/outbox"),
           ("type", J.str "OrderedCollection"),
           ("attributedTo", J.str "http://t.test/u2")])]
        [] [("id", J.str "http://t.test/u2"), ("type", J.str "Person"),
            ("outbox", J.str "http://t.test/outbox")]
        [("type", J.str "Create"),
         ("object", J.obj [("id", J.str "http://t.test/u2/doc"),
           ("type", J.str "Document"), ("content", J.str "hi")])]).1
        "http://t.test/u2/create-uid"
      = none
    ∧ (memGet (processOutbox (fun _ => "uid")
        [("http://t.test/u2",
          [("id", J.str "http://t.test/u2"), ("type", J.str "Person"),
           ("outbox", J.str "http://t.test/outbox")]),
         ("http://t.test/outbox",
          [("id", J.str "http://t.test/outbox"),
           ("type", J.str "OrderedCollection"),
           ("attributedTo", J.str "http://t.test/u2")])]
        [] [("id", J.str "http://t.test/u2"), ("type", J.str "Person"),
            ("outbox", J.str "http://t.test/outbox")]
        [("type", J.str "Like"),
         ("object", J.str "http://t.test/u2/note")]).1
        "http://t.test/u2/like-uid").isSome = true := by
  decide

/-! ## C10: inbox POST persists before validation -/

/-- **C10.** `_process_inbox` persists the incoming activity and
prepends its URI to the owner's inbox collection *before* any
type-based validation: an activity of unrecognized type is rejected
with `501` and a self-follow with `400`, yet in both cases the final
store still holds the activity under its id and the inbox collection
with the URI prepended — the error response undoes neither write. -/
theorem claim10_inbox_persists_before_validation
    (fresh : Nat → String) (st : Store) (d : List JObj) (auth : Option String)
    (boxOwner activity c : JObj) (aid inboxUri ty : String) (l : List J)
    (haid : jget activity "id" = some (.str aid))
    (hty : jget activity "type" = some (.str ty))
    (hibU : jget boxOwner "inbox" = some (.str inboxUri))
    (hne : aid ≠ inboxUri)
    (hc : memGet st inboxUri = some c)
    (hcid : jget c "id" = some (.str inboxUri))
    (htypeC : hasValue c "type" "OrderedCollection" = true)
    (hitems : jget c "orderedItems" = some (.arr l))
    (hnotin : J.str aid ∉ l) :
    (ty ∉ (["Follow", "Like", "Create", "Undo"] : List String) →
        processInbox fresh st d auth boxOwner activity
          = (storeInsert (storeInsert st aid activity) inboxUri
              (jset c "orderedItems" (.arr (.str aid :: l))), d,
             .error (.http 501 "")))
    ∧ (∀ ownerId, ty = "Follow" → auth = some ownerId →
        jget activity "actor" = some (.str ownerId) →
        jget activity "object" = some (.str ownerId) →
        jget boxOwner "id" = some (.str ownerId) →
        processInbox fresh st d auth boxOwner activity
          = (storeInsert (storeInsert st aid activity) inboxUri
              (jset c "orderedItems" (.arr (.str aid :: l))), d,
             .error (.http 400 "Cannot follow self")))
    ∧ memGet (storeInsert (storeInsert st aid activity) inboxUri
          (jset c "orderedItems" (.arr (.str aid :: l)))) aid = some activity
    ∧ jget ((memGet (storeInsert (storeInsert st aid activity) inboxUri
          (jset c "orderedItems" (.arr (.str aid :: l)))) inboxUri).getD [])
        "orderedItems" = some (.arr (.str aid :: l)) := by
  have hc₁ : memGet (storeInsert st aid activity) inboxUri = some c := by
    show storeLookup (storeInsert st aid activity) inboxUri = some c
    rw [storeLookup_insert_ne st aid inboxUri activity hne]
    exact hc
  have hitems' : jget c (if hasValue c "type" "OrderedCollection" then "orderedItems"
      else "items") = some (.arr l) := by simp [htypeC, hitems]
  have hcol := putCollectionItem_insert (storeInsert st aid activity) c inboxUri aid
    (fresh 1) l hc₁ hcid hitems' hnotin
  rw [htypeC] at hcol
  simp only [if_pos rfl] at hcol
  have hrid : resourceIdObj activity = Except.ok aid := by
    simp [resourceIdObj, resourceIdE, haid, pyStr]
  refine ⟨fun hno => ?_, fun ownerId hf hauth hact hobj hboid => ?_, ?_, ?_⟩
  · have h₁ : ty ≠ "Follow" := fun h => hno (by rw [h]; simp)
    have h₂ : ty ≠ "Like" := fun h => hno (by rw [h]; simp)
    have h₃ : ty ≠ "Create" := fun h => hno (by rw [h]; simp)
    have h₄ : ty ≠ "Undo" := fun h => hno (by rw [h]; simp)
    simp [processInbox, memPut, haid, pyStr, hibU, hrid, putCollectionItemDefault,
      hcol, hasValue, hty, h₁, h₂, h₃, h₄]
  · subst hf hauth
    simp [processInbox, memPut, haid, pyStr, hibU, hrid, putCollectionItemDefault,
      hcol, hasValue, hty, processInboxFollow, resourceIdE, hact, hobj, hboid,
      assertAuthorizedActor]
  · show storeLookup _ _ = _
    rw [storeLookup_insert_ne _ inboxUri aid _ (Ne.symm hne),
      storeLookup_insert_self]
  · show jget ((storeLookup _ _).getD []) "orderedItems" = _
    rw [storeLookup_insert_self]
    simp [jget_jset_self]

/-- Witness for C10: a `Move` activity (501) and a self-follow (400)
both leave the activity stored and the inbox prepended. -/
theorem claim10_inbox_persists_witness :
    processInbox (fun _ => "uid")
        [("http://t.test/u2",
          [("id", J.str "http://t.test/u2"), ("type", J.str "Person"),
           ("inbox", J.str "http://t.test/inbox")]),
         ("http://t.test/inbox",
          [("id", J.str "http://t.test/inbox"),
           ("type", J.str "OrderedCollection"),
           ("orderedItems", J.arr [])])]
        [] (some "http://r.test/u1")
        [("id", J.str "http://t.test/u2"), ("type", J.str "Person"),
         ("inbox", J.str "http://t.test/inbox")]
        [("id", J.str "http://r.test/w1"), ("type", J.str "Move")]
      = ([("http://t.test/u2",
          [("id", J.str "http://t.test/u2"), ("type", J.str "Person"),
           ("inbox", J.str "http://t.test/inbox")]),
         ("http://t.test/inbox",
          [("id", J.str "http://t.test/inbox"),
           ("type", J.str "OrderedCollection"),
           ("orderedItems", J.arr [J.str "http://r.test/w1"])]),
         ("http://r.test/w1",
          [("id", J.str "http://r.test/w1"), ("type", J.str "Move")])], [],
         .error (.http 501 ""))
    ∧ processInbox (fun _ => "uid")
        [("http://t.test/u2",
          [("id", J.str "http://t.test/u2"), ("type", J.str "Person"),
           ("inbox", J.str "http://t.test/inbox")]),
         ("http://t.test/inbox",
          [("id", J.str "http://t.test/inbox"),
           ("type", J.str "OrderedCollection"),
           ("orderedItems", J.arr [])])]
        [] (some "http://t.test/u2")
        [("id", J.str "http://t.test/u2"), ("type", J.str "Person"),
         ("inbox", J.str "http://t.test/inbox")]
        [("id", J.str "http://t.test/sf"), ("type", J.str "Follow"),
         ("actor", J.str "http://t.test/u2"), ("object", J.str "http://t.test/u2")]
      = ([("http://t.test/u2",
          [("id", J.str "http://t.test/u2"), ("type", J.str "Person"),
           ("inbox", J.str "http://t.test/inbox")]),
         ("http://t.test/inbox",
          [("id", J.str "http://t.test/inbox"),
           ("type", J.str "OrderedCollection"),
           ("orderedItems", J.arr [J.str "http://t.test/sf"])]),
         ("http://t.test/sf",
          [("id", J.str "http://t.test/sf"), ("type", J.str "Follow"),
           ("actor", J.str "http://t.test/u2"),
           ("object", J.str "http://t.test/u2")])], [],
         .error (.http 400 "Cannot follow self")) := by
  constructor
  · exact (claim10_inbox_persists_before_validation (fun _ => "uid")
      [("http://t.test/u2",
        [("id", J.str "http://t.test/u2"), ("type", J.str "Person"),
         ("inbox", J.str "http://t.test/inbox")]),
       ("http://t.test/inbox",
        [("id", J.str "http://t.test/inbox"), ("type", J.str "OrderedCollection"),
         ("orderedItems", J.arr [])])]
      [] (some "http://r.test/u1")
      [("id", J.str "http://t.test/u2"), ("type", J.str "Person"),
       ("inbox", J.str "http://t.test/inbox")]
      [("id", J.str "http://r.test/w1"), ("type", J.str "Move")]
      [("id", J.str "http://t.test/inbox"), ("type", J.str "OrderedCollection"),
       ("orderedItems", J.arr [])]
      "http://r.test/w1" "http://t.test/inbox" "Move" []
      (by decide) (by decide) (by decide) (by decide) (by decide) (by decide)
      (by decide) (by decide) (by decide)).1 (by decide)
  · exact (claim10_inbox_persists_before_validation (fun _ => "uid")
      [("http://t.test/u2",
        [("id", J.str "http://t.test/u2"), ("type", J.str "Person"),
         ("inbox", J.str "http://t.test/inbox")]),
       ("http://t.test/inbox",
        [("id", J.str "http://t.test/inbox"), ("type", J.str "OrderedCollection"),
         ("orderedItems", J.arr [])])]
      [] (some "http://t.test/u2")
      [("id", J.str "http://t.test/u2"), ("type", J.str "Person"),
       ("inbox", J.str "http://t.test/inbox")]
      [("id", J.str "http://t.test/sf"), ("type", J.str "Follow"),
       ("actor", J.str "http://t.test/u2"), ("object", J.str "http://t.test/u2")]
      [("id", J.str "http://t.test/inbox"), ("type", J.str "OrderedCollection"),
       ("orderedItems", J.arr [])]
      "http://t.test/sf" "http://t.test/inbox" "Follow" []
      (by decide) (by decide) (by decide) (by decide) (by decide) (by decide)
      (by decide) (by decide) (by decide)).2.1 "http://t.test/u2" rfl rfl
      (by decide) (by decide) (by decide)

end Firm
